import Mathlib

/-!
# The scraper control panel (`src/frontend/script.js`)

A shallow embedding of the page script: the two script variables
(`scraperRunning`, `logUpdateInterval`), the DOM properties the script reads
and writes, the interval timers of the window, and one function per handler
of the script.  Asynchronous code is split where the source splits it: the
synchronous part of a handler returns the new state and the requests it
issued, and the promise chain of each request is a second function applied
to the way the request settled.

Built-ins whose output the language standard leaves to the engine (the
message of a `SyntaxError`, the digits of very large numbers, the reading of
the clock) are parameters; everything else is computed.

Left out of the state: what is written to the console, the scroll position
of the log pane and the `credentials` option of the configuration request.
The payload of `/api/logs` is an array of records with string fields and one
of the four severities, as the interface of the server gives it.
-/

namespace ScraperUI

/-! ## Numbers -/

/-- Number values the script computes with: the results of `parseInt` and the
integer literals `1` and `10`.  Finite values are integers; `-0` and `+0` are
the one value `fin 0` (both are falsy and both print as `0`). -/
inductive JSNumber where
  | nan
  | posInf
  | negInf
  | fin (v : Int)
  deriving DecidableEq

namespace JSNumber

/-- The relational operator `a > b`. -/
def gt : JSNumber → JSNumber → Bool
  | nan, _ => false
  | _, nan => false
  | posInf, posInf => false
  | posInf, _ => true
  | negInf, _ => false
  | fin _, posInf => false
  | fin _, negInf => true
  | fin a, fin b => decide (b < a)

/-- The relational operator `a <= b`. -/
def le : JSNumber → JSNumber → Bool
  | nan, _ => false
  | _, nan => false
  | _, posInf => true
  | posInf, _ => false
  | negInf, _ => true
  | fin _, negInf => false
  | fin a, fin b => decide (a ≤ b)

/-- ToBoolean on a number: `NaN` and zero are falsy. -/
def truthy : JSNumber → Bool
  | nan => false
  | fin v => decide (v ≠ 0)
  | _ => true

/-- The expression `a || b` on numbers. -/
def or (a b : JSNumber) : JSNumber :=
  if a.truthy then a else b

end JSNumber

/-- Number of binary digits of `n`, by halving (`fuel` bounds the halvings). -/
def bitLengthAux : Nat → Nat → Nat
  | 0, _ => 0
  | fuel + 1, n => if n = 0 then 0 else bitLengthAux fuel (n / 2) + 1

/-- Number of binary digits of `n`. -/
def bitLength (n : Nat) : Nat := bitLengthAux n n

/-- The double nearest to the natural number `n`, ties to even; `none` when
the nearest double is infinite. -/
def roundToDouble (n : Nat) : Option Nat :=
  if n < 2 ^ 53 then some n
  else
    let e := bitLength n - 53
    let q := n / 2 ^ e
    let r := n % 2 ^ e
    let half := 2 ^ (e - 1)
    let q1 := if half < r ∨ (r = half ∧ q % 2 = 1) then q + 1 else q
    let v := q1 * 2 ^ e
    if 1024 < bitLength v then none else some v

/-- The Number value of a mathematical integer given by sign and magnitude. -/
def toNumber (negative : Bool) (magnitude : Nat) : JSNumber :=
  match roundToDouble magnitude with
  | some v => JSNumber.fin (if negative then -(v : Int) else (v : Int))
  | none => if negative then JSNumber.negInf else JSNumber.posInf

/-- White space and line terminators stripped by `parseInt`. -/
def isStrWhiteSpace (c : Char) : Bool :=
  let n := c.toNat
  n = 0x09 || n = 0x0A || n = 0x0B || n = 0x0C || n = 0x0D || n = 0x20 ||
  n = 0xA0 || n = 0x1680 || (0x2000 ≤ n && n ≤ 0x200A) || n = 0x2028 ||
  n = 0x2029 || n = 0x202F || n = 0x205F || n = 0x3000 || n = 0xFEFF

/-- Value of a character as a digit, when it denotes one in some radix up to 36. -/
def digitValue (c : Char) : Option Nat :=
  let n := c.toNat
  if 48 ≤ n ∧ n ≤ 57 then some (n - 48)
  else if 97 ≤ n ∧ n ≤ 122 then some (n - 97 + 10)
  else if 65 ≤ n ∧ n ≤ 90 then some (n - 65 + 10)
  else none

/-- Whether a character is a digit of the radix. -/
def isRadixDigit (radix : Nat) (c : Char) : Bool :=
  match digitValue c with
  | some d => decide (d < radix)
  | none => false

/-- The integer written by a run of digits of the radix. -/
def digitsValue (radix : Nat) (cs : List Char) : Nat :=
  cs.foldl (fun acc c => acc * radix + (digitValue c).getD 0) 0

/-- Split an optional sign off the front of the trimmed text. -/
def splitSign : List Char → Bool × List Char
  | '-' :: rest => (true, rest)
  | '+' :: rest => (false, rest)
  | cs => (false, cs)

/-- Split an optional `0x` / `0X` prefix off, giving the radix. -/
def splitRadix : List Char → Nat × List Char
  | '0' :: 'x' :: rest => (16, rest)
  | '0' :: 'X' :: rest => (16, rest)
  | cs => (10, cs)

/-- The built-in `parseInt(string)` called with one argument: leading white
space is dropped, then an optional sign and an optional hexadecimal prefix;
the longest run of digits is read and anything after it is ignored; no digit
at all gives `NaN`. -/
def parseInt (text : String) : JSNumber :=
  let trimmed := text.toList.dropWhile isStrWhiteSpace
  let (negative, unsigned) := splitSign trimmed
  let (radix, body) := splitRadix unsigned
  let digits := body.takeWhile (isRadixDigit radix)
  if digits.isEmpty then JSNumber.nan
  else toNumber negative (digitsValue radix digits)

/-! ## JSON-shaped values -/

/-- Values of the shape `JSON.parse` and `response.json()` produce, and the
object literals the script passes to `JSON.stringify`.  An object lists its
properties in enumeration order with distinct keys.  Numbers are the integer
valued ones of `JSNumber`. -/
inductive Json where
  | null
  | bool (b : Bool)
  | num (n : JSNumber)
  | str (s : String)
  | arr (items : List Json)
  | obj (props : List (String × Json))

/-- Built-ins of the browser whose result the standard leaves to the engine,
and the address the page was served from. -/
structure Host where
  /-- Value of `window.location.origin`. -/
  origin : String
  /-- `JSON.parse`: the value, or the message of the `SyntaxError` thrown. -/
  jsonParse : String → Except String Json
  /-- Message of the `TypeError` thrown by reading a property of `null`. -/
  nullReadMessage : String
  /-- Number to string conversion of an integer-valued double of magnitude
  `2^53` or more: the pair `(s, n)` of the shortest digits `s` that read back
  as the same double and the number `n` of digits before the decimal point.
  The standard leaves the last digit of `s` to the engine. -/
  shortestDigits : Nat → Nat × Nat
  /-- Message carried by `new Error(v)` for an array or object `v`. -/
  objectMessage : Json → String

/-- The digits `s` at decimal point position `n`, as number to string
conversion writes them: up to `n = 21` the digits padded with zeros, from
there on the first digit, the point and the other digits if there are any,
and the exponent `n - 1`. -/
def formatDigits (s n : Nat) : String :=
  let digits := toString s
  if n ≤ 21 then digits ++ String.mk (List.replicate (n - digits.length) '0')
  else
    digits.take 1 ++ (if digits.length = 1 then "" else "." ++ digits.drop 1) ++
      "e+" ++ toString (n - 1)

/-- Number to string conversion, as done by template literals and by
`JSON.stringify` on finite numbers.  Below `2^53` every integer is a double
and prints as itself; from there on the shortest digits that read back as
the same double are printed. -/
def numberToString (host : Host) : JSNumber → String
  | JSNumber.nan => "NaN"
  | JSNumber.posInf => "Infinity"
  | JSNumber.negInf => "-Infinity"
  | JSNumber.fin v =>
    if v.natAbs < 2 ^ 53 then toString v
    else
      (if v < 0 then "-" else "") ++
        formatDigits (host.shortestDigits v.natAbs).1 (host.shortestDigits v.natAbs).2

/-- Lower-case hexadecimal digit. -/
def hexDigit (n : Nat) : Char :=
  if n < 10 then Char.ofNat (48 + n) else Char.ofNat (87 + n)

/-- Escape of one character inside a JSON string literal. -/
def escapeJSONChar (c : Char) : String :=
  let n := c.toNat
  if n = 0x22 then "\\\""
  else if n = 0x5C then "\\\\"
  else if n = 0x08 then "\\b"
  else if n = 0x09 then "\\t"
  else if n = 0x0A then "\\n"
  else if n = 0x0C then "\\f"
  else if n = 0x0D then "\\r"
  else if n < 0x20 then "\\u00" ++ String.mk [hexDigit (n / 16), hexDigit (n % 16)]
  else String.mk [c]

/-- A string as a JSON string literal, quotes included. -/
def quoteJSONString (s : String) : String :=
  "\"" ++ s.toList.foldl (fun acc c => acc ++ escapeJSONChar c) "" ++ "\""

/-- Brackets around the serialised members of an array or object: nothing
between them when there is no member, members on one line when `gap` is
empty, one member per line indented by `stepback ++ gap` otherwise. -/
def wrapMembers (opening closing gap stepback : String) (members : List String) : String :=
  if members.isEmpty then opening ++ closing
  else if gap.isEmpty then opening ++ ",".intercalate members ++ closing
  else
    let indent := stepback ++ gap
    opening ++ "\n" ++ indent ++ (",\n" ++ indent).intercalate members ++
      "\n" ++ stepback ++ closing

mutual
/-- Serialisation of a value at the current indentation. -/
def serializeJSON (host : Host) (gap indent : String) : Json → String
  | Json.null => "null"
  | Json.bool b => if b then "true" else "false"
  | Json.num (JSNumber.fin v) => numberToString host (JSNumber.fin v)
  | Json.num _ => "null"
  | Json.str s => quoteJSONString s
  | Json.arr items =>
    wrapMembers "[" "]" gap indent (serializeItems host gap (indent ++ gap) items)
  | Json.obj props =>
    wrapMembers "\x7b" "\x7d" gap indent (serializeProps host gap (indent ++ gap) props)
/-- Serialisation of the elements of an array. -/
def serializeItems (host : Host) (gap indent : String) : List Json → List String
  | [] => []
  | x :: xs => serializeJSON host gap indent x :: serializeItems host gap indent xs
/-- Serialisation of the properties of an object. -/
def serializeProps (host : Host) (gap indent : String) : List (String × Json) → List String
  | [] => []
  | (k, v) :: rest =>
    (quoteJSONString k ++ ":" ++ (if gap.isEmpty then "" else " ") ++
        serializeJSON host gap indent v) :: serializeProps host gap indent rest
end

/-- The call `JSON.stringify(value)` (`space = 0`) and the call
`JSON.stringify(value, null, space)`: the gap is `space` blanks, ten at most. -/
def JSON.stringify (host : Host) (value : Json) (space : Nat) : String :=
  serializeJSON host (String.mk (List.replicate (min space 10) ' ')) "" value

/-- ToBoolean on a JSON-shaped value. -/
def Json.truthy : Json → Bool
  | Json.null => false
  | Json.bool b => b
  | Json.num n => n.truthy
  | Json.str s => !s.isEmpty
  | Json.arr _ => true
  | Json.obj _ => true

/-- The property read `config.error`: `none` is the `TypeError` of reading
from `null`, `some none` is `undefined`. -/
def readError : Json → Option (Option Json)
  | Json.null => none
  | Json.obj props => some (props.lookup "error")
  | _ => some none

/-- Message of the error made by `new Error(v)`. -/
def errorMessage (host : Host) : Json → String
  | Json.null => "null"
  | Json.bool b => if b then "true" else "false"
  | Json.num n => numberToString host n
  | Json.str s => s
  | v => host.objectMessage v

/-- The method `String.prototype.includes`. -/
def includes (text search : String) : Bool :=
  text.toList.tails.any (fun t => search.toList.isPrefixOf t)

/-! ## Page state -/

/-- The severities of a log line: the `type` argument of `addLog` and the
`level` of a record served by `/api/logs`. -/
inductive LogLevel where
  | info
  | success
  | warning
  | error
  deriving DecidableEq

/-- The text of a severity, as it is spliced into the class name. -/
def LogLevel.name : LogLevel → String
  | LogLevel.info => "info"
  | LogLevel.success => "success"
  | LogLevel.warning => "warning"
  | LogLevel.error => "error"

/-- A child `div` of the log pane. -/
structure LogElement where
  classList : List String
  textContent : String
  deriving DecidableEq

/-- One record of the array served by `/api/logs`. -/
structure LogRecord where
  timestamp : String
  level : LogLevel
  message : String
  deriving DecidableEq

/-- A call of `fetch`: method, address, request headers and body. -/
structure Request where
  method : String
  url : String
  headers : List (String × String)
  body : Option String
  deriving DecidableEq

/-- How a `fetch` settles: the promise rejects with an error carrying a
message, or resolves to a response whose `json()` gives a value or rejects
with a message. -/
inductive FetchResult (α : Type) where
  | rejected (message : String)
  | response (status : Nat) (statusText : String) (json : Except String α)

/-- The property `response.ok`: the status is in the range 200 to 299. -/
def responseOk (status : Nat) : Bool :=
  decide (200 ≤ status ∧ status ≤ 299)

/-- Readings of `new Date().toLocaleTimeString()`: the reading taken by the
`i`-th call of `addLog` within one handler invocation. -/
abbrev Clock := Nat → String

/-- The script variables, the interval timers of the window and the DOM
properties the script touches. -/
structure State where
  /-- Script variable `scraperRunning`. -/
  scraperRunning : Bool
  /-- Script variable `logUpdateInterval`; `none` is `null`. -/
  logUpdateInterval : Option Nat
  /-- Handles of the interval timers that are armed. -/
  activeTimers : List Nat
  /-- The handle the next `setInterval` returns. -/
  nextTimerId : Nat
  /-- Property `configTextarea.value`. -/
  configText : String
  /-- Property `startBatchInput.value`. -/
  startBatchText : String
  /-- Property `endBatchInput.value`. -/
  endBatchText : String
  /-- Property `runScraperBtn.disabled`. -/
  runScraperBtnDisabled : Bool
  /-- Property `stopScraperBtn.disabled`. -/
  stopScraperBtnDisabled : Bool
  /-- Property `startBatchInput.disabled`. -/
  startBatchInputDisabled : Bool
  /-- Property `endBatchInput.disabled`. -/
  endBatchInputDisabled : Bool
  /-- Property `saveConfigBtn.disabled`. -/
  saveConfigBtnDisabled : Bool
  /-- Children of `logsContainer`. -/
  logsContainer : List LogElement
  /-- Property `configStatus.textContent`. -/
  configStatusText : String
  /-- Property `configStatus.className`. -/
  configStatusClass : String
  deriving DecidableEq

/-- The state when the script starts on a page: the DOM is as the document
built it, the script variables are freshly initialised and no timer is armed. -/
def State.start (page : State) : State :=
  { page with scraperRunning := false, logUpdateInterval := none,
              activeTimers := [], nextTimerId := 1 }

/-- The five `disabled` flags, in the order run button, stop button, start
input, end input, save button. -/
def State.controls (s : State) : List Bool :=
  [s.runScraperBtnDisabled, s.stopScraperBtnDisabled, s.startBatchInputDisabled,
   s.endBatchInputDisabled, s.saveConfigBtnDisabled]

/-! ## Timers of the window -/

/-- ToBoolean on the timer variable: `null` and `0` are falsy. -/
def handleTruthy : Option Nat → Bool
  | none => false
  | some 0 => false
  | some (_ + 1) => true

/-- The built-in `clearInterval`: disarms the timer with that handle, if any. -/
def clearInterval (handle : Option Nat) (s : State) : State :=
  match handle with
  | none => s
  | some h => { s with activeTimers := s.activeTimers.filter (fun t => t != h) }

/-- The built-in `setInterval`: arms a timer and returns its handle. -/
def setInterval (s : State) : Nat × State :=
  (s.nextTimerId,
   { s with activeTimers := s.activeTimers ++ [s.nextTimerId],
            nextTimerId := s.nextTimerId + 1 })

/-! ## The functions of the script -/

/-- Source `addLog(message, type)`: appends one entry to the log pane. -/
def addLog (now : String) (message : String) (type : LogLevel) (s : State) : State :=
  { s with logsContainer := s.logsContainer ++
      [{ classList := ["log-entry", "log-" ++ type.name],
         textContent := "[" ++ now ++ "] " ++ message }] }

/-- The element `updateLogs` creates for one record. -/
def logEntry (log : LogRecord) : LogElement :=
  { classList := ["log-entry", "log-" ++ log.level.name],
    textContent := "[" ++ log.timestamp ++ "] " ++ log.message }

/-- Source `updateLogs(logs)`: empties the pane, then appends one element
per record in the order of the array. -/
def updateLogs (logs : List LogRecord) (s : State) : State :=
  logs.foldl
    (fun st log => { st with logsContainer := st.logsContainer ++ [logEntry log] })
    { s with logsContainer := [] }

/-- Source `updateUIForRunningState()`. -/
def updateUIForRunningState (s : State) : State :=
  { s with runScraperBtnDisabled := true, stopScraperBtnDisabled := false,
           startBatchInputDisabled := true, endBatchInputDisabled := true,
           saveConfigBtnDisabled := true }

/-- Source `updateUIForStoppedState()`: the controls go back and the timer
in `logUpdateInterval` is cleared; the variable keeps the handle. -/
def updateUIForStoppedState (s : State) : State :=
  let s1 := { s with runScraperBtnDisabled := false, stopScraperBtnDisabled := true,
                     startBatchInputDisabled := false, endBatchInputDisabled := false,
                     saveConfigBtnDisabled := false }
  if handleTruthy s1.logUpdateInterval then clearInterval s1.logUpdateInterval s1 else s1

/-- Source `startLogUpdates()`: clears the timer in `logUpdateInterval`, arms
a new one and stores its handle. -/
def startLogUpdates (s : State) : State :=
  let s1 := if handleTruthy s.logUpdateInterval then clearInterval s.logUpdateInterval s else s
  let (handle, s2) := setInterval s1
  { s2 with logUpdateInterval := some handle }

/-- The request of one poll tick, `fetch('/api/logs')`. -/
def pollRequest : Request :=
  { method := "GET", url := "/api/logs", headers := [], body := none }

/-- The promise chain of a poll tick.  The status is not looked at; a
rejected fetch or an unreadable body only writes to the console. -/
def pollSettled (r : FetchResult (List LogRecord)) (s : State) : State :=
  match r with
  | FetchResult.rejected _ => s
  | FetchResult.response _ _ (Except.error _) => s
  | FetchResult.response _ _ (Except.ok logs) =>
    let s1 := updateLogs logs s
    if !s1.scraperRunning then updateUIForStoppedState s1 else s1

/-- The object literal `loadConfig` falls back to. -/
def defaultConfig : Json :=
  Json.obj [
    ("download_dir", Json.str "./downloads"),
    ("auth_url", Json.str "https://login.openathens.net/auth/cobbcounty.org/o/72388178"),
    ("library_credentials", Json.obj [
      ("Cobb County Library", Json.obj [
        ("username", Json.str "YOUR_LIBRARY_CARD_NUMBER"),
        ("password", Json.str "YOUR_PIN")])]),
    ("search_parameters", Json.obj [
      ("state", Json.str "Georgia"),
      ("include_unverified", Json.bool true),
      ("include_closed", Json.bool false)]),
    ("pages_per_batch", Json.num (JSNumber.fin 10)),
    ("pages_to_download", Json.str "all"),
    ("state_file", Json.str "reference_usa_state.json")]

/-- Source `loadConfig()`, the part that runs before the request settles. -/
def loadConfig (host : Host) (clock : Clock) (s : State) : State × List Request :=
  let s1 := addLog (clock 0) "Loading configuration..." LogLevel.info s
  let s2 := { s1 with configStatusText := "Loading configuration...",
                      configStatusClass := "status-message status-info" }
  let apiUrl := "/api/config"
  let s3 := addLog (clock 1) ("Connecting to: " ++ host.origin ++ apiUrl) LogLevel.info s2
  (s3, [{ method := "GET", url := apiUrl,
          headers := [("Accept", "application/json"), ("Content-Type", "application/json")],
          body := none }])

/-- First `then` of `loadConfig`: a response that is not ok throws, otherwise
the body is read as JSON. -/
def loadConfigResponse (r : FetchResult Json) : Except String Json :=
  match r with
  | FetchResult.rejected message => Except.error message
  | FetchResult.response status statusText json =>
    if !responseOk status then
      Except.error ("Failed to load configuration: " ++ toString status ++ " " ++ statusText)
    else json

/-- The statement `if (config.error) throw new Error(config.error)`: the
message of the error it raises, if it raises one.  Reading `error` from
`null` is a `TypeError`; a property that is absent or falsy raises nothing. -/
def configError (host : Host) (config : Json) : Option String :=
  match readError config with
  | none => some host.nullReadMessage
  | some property =>
    match property.filter Json.truthy with
    | some e => some (errorMessage host e)
    | none => none

/-- Second `then` of `loadConfig`: the error test, then the configuration is
shown in the editor, the log and the status line. -/
def loadConfigLoaded (host : Host) (clock : Clock) (config : Json) (s : State) :
    Except String State :=
  match configError host config with
  | some message => Except.error message
  | none =>
    let s1 := { s with configText := JSON.stringify host config 2 }
    let s2 := addLog (clock 0) "Configuration loaded successfully" LogLevel.success s1
    Except.ok { s2 with configStatusText := "Configuration loaded successfully",
                        configStatusClass := "status-message status-success" }

/-- The `catch` of `loadConfig`. -/
def loadConfigFailed (host : Host) (clock : Clock) (message : String) (s : State) : State :=
  let s1 := addLog (clock 0) ("Error: " ++ message) LogLevel.error s
  let s2 := { s1 with configStatusText := "Error: " ++ message,
                      configStatusClass := "status-message status-error" }
  let s3 :=
    if includes message "Failed to fetch" then
      let t1 := addLog (clock 1)
        "Connection to server failed. Make sure the server is running." LogLevel.error s2
      let t2 := { t1 with configStatusText := "Server connection failed. Is the server running?" }
      let serverAddress := host.origin
      addLog (clock 2) ("The server should be running at: " ++ serverAddress) LogLevel.info t2
    else s2
  { s3 with configText := JSON.stringify host defaultConfig 2 }

/-- The promise chain of `loadConfig`, applied to the way the request settled. -/
def loadConfigSettled (host : Host) (clock : Clock) (r : FetchResult Json) (s : State) : State :=
  match loadConfigResponse r with
  | Except.error message => loadConfigFailed host clock message s
  | Except.ok config =>
    match loadConfigLoaded host clock config s with
    | Except.error message => loadConfigFailed host clock message s
    | Except.ok s1 => s1

/-- Source `saveConfig()`, the part that runs before the request settles: the
request is made inside the `try`, after `JSON.parse` returned. -/
def saveConfig (host : Host) (clock : Clock) (s : State) : State × List Request :=
  let s1 := addLog (clock 0) "Saving configuration..." LogLevel.info s
  let s2 := { s1 with configStatusText := "Saving configuration...",
                      configStatusClass := "status-message status-info" }
  match host.jsonParse s2.configText with
  | Except.ok configData =>
    (s2, [{ method := "POST", url := "/api/config",
            headers := [("Content-Type", "application/json")],
            body := some (JSON.stringify host configData 0) }])
  | Except.error message =>
    let s3 := addLog (clock 1) ("Invalid JSON: " ++ message) LogLevel.error s2
    ({ s3 with configStatusText := "Invalid JSON: " ++ message,
               configStatusClass := "status-message status-error" }, [])

/-- The first `then` shared in shape by the save, run and stop chains: a
rejected fetch or a response that is not ok fails with a message, otherwise
the body is read as JSON. -/
def checkResponse (failure : String) (r : FetchResult Json) : Except String Json :=
  match r with
  | FetchResult.rejected message => Except.error message
  | FetchResult.response status _ json =>
    if !responseOk status then Except.error failure else json

/-- The promise chain of `saveConfig`. -/
def saveConfigSettled (clock : Clock) (r : FetchResult Json) (s : State) : State :=
  match checkResponse "Failed to save configuration" r with
  | Except.ok _ =>
    let s1 := addLog (clock 0) "Configuration saved successfully" LogLevel.success s
    { s1 with configStatusText := "Configuration saved successfully",
              configStatusClass := "status-message status-success" }
  | Except.error message =>
    let s1 := addLog (clock 0) ("Error: " ++ message) LogLevel.error s
    { s1 with configStatusText := "Error: " ++ message,
              configStatusClass := "status-message status-error" }

/-- The value `parseInt(startBatchInput.value) || 1`. -/
def startBatchOf (s : State) : JSNumber :=
  (parseInt s.startBatchText).or (JSNumber.fin 1)

/-- The value `parseInt(endBatchInput.value) || 10`. -/
def endBatchOf (s : State) : JSNumber :=
  (parseInt s.endBatchText).or (JSNumber.fin 10)

/-- The request `runScraper` makes for a pair of batch numbers. -/
def runRequest (host : Host) (startBatch endBatch : JSNumber) : Request :=
  { method := "POST", url := "/api/run",
    headers := [("Content-Type", "application/json")],
    body := some (JSON.stringify host
      (Json.obj [("startBatch", Json.num startBatch), ("endBatch", Json.num endBatch)]) 0) }

/-- Source `runScraper()`, the part that runs before the request settles. -/
def runScraper (host : Host) (clock : Clock) (s : State) : State × List Request :=
  let startBatch := startBatchOf s
  let endBatch := endBatchOf s
  if startBatch.gt endBatch then
    (addLog (clock 0) "Error: Start batch cannot be greater than end batch" LogLevel.error s, [])
  else
    (addLog (clock 0)
        ("Starting scraper (Batch " ++ numberToString host startBatch ++ " to " ++
          numberToString host endBatch ++ ")...") LogLevel.info s,
     [runRequest host startBatch endBatch])

/-- The promise chain of `runScraper`. -/
def runScraperSettled (clock : Clock) (r : FetchResult Json) (s : State) : State :=
  match checkResponse "Failed to start scraper" r with
  | Except.ok _ =>
    startLogUpdates (updateUIForRunningState { s with scraperRunning := true })
  | Except.error message => addLog (clock 0) ("Error: " ++ message) LogLevel.error s

/-- The request of `stopScraper`: a POST without headers or body. -/
def stopRequest : Request :=
  { method := "POST", url := "/api/stop", headers := [], body := none }

/-- Source `stopScraper()`, the part that runs before the request settles. -/
def stopScraper (clock : Clock) (s : State) : State × List Request :=
  (addLog (clock 0) "Stopping scraper..." LogLevel.warning s,
   [stopRequest])

/-- The promise chain of `stopScraper`. -/
def stopScraperSettled (clock : Clock) (r : FetchResult Json) (s : State) : State :=
  match checkResponse "Failed to stop scraper" r with
  | Except.ok _ => updateUIForStoppedState { s with scraperRunning := false }
  | Except.error message => addLog (clock 0) ("Error: " ++ message) LogLevel.error s

/-! ## Events of the page -/

/-- What can happen on the page: a click on one of the four buttons, a
request settling, the interval timer firing, the user editing a field. -/
inductive Event where
  | loadConfigClick (clock : Clock)
  | loadConfigDone (clock : Clock) (r : FetchResult Json)
  | saveConfigClick (clock : Clock)
  | saveConfigDone (clock : Clock) (r : FetchResult Json)
  | runScraperClick (clock : Clock)
  | runScraperDone (clock : Clock) (r : FetchResult Json)
  | stopScraperClick (clock : Clock)
  | stopScraperDone (clock : Clock) (r : FetchResult Json)
  | pollTick
  | pollDone (r : FetchResult (List LogRecord))
  | editConfig (text : String)
  | editStartBatch (text : String)
  | editEndBatch (text : String)

/-- The handler of an event: the new state and the requests issued. -/
def step (host : Host) (e : Event) (s : State) : State × List Request :=
  match e with
  | Event.loadConfigClick clock => loadConfig host clock s
  | Event.loadConfigDone clock r => (loadConfigSettled host clock r s, [])
  | Event.saveConfigClick clock => saveConfig host clock s
  | Event.saveConfigDone clock r => (saveConfigSettled clock r s, [])
  | Event.runScraperClick clock => runScraper host clock s
  | Event.runScraperDone clock r => (runScraperSettled clock r s, [])
  | Event.stopScraperClick clock => stopScraper clock s
  | Event.stopScraperDone clock r => (stopScraperSettled clock r s, [])
  | Event.pollTick => (s, [pollRequest])
  | Event.pollDone r => (pollSettled r s, [])
  | Event.editConfig text => ({ s with configText := text }, [])
  | Event.editStartBatch text => ({ s with startBatchText := text }, [])
  | Event.editEndBatch text => ({ s with endBatchText := text }, [])

/-- The state after a sequence of events, handled in order. -/
def runEvents (host : Host) (events : List Event) (s : State) : State :=
  events.foldl (fun st e => (step host e st).1) s

/-- Whether a settled run or stop request takes the success branch. -/
def succeeded (failure : String) (r : FetchResult Json) : Bool :=
  match checkResponse failure r with
  | Except.ok _ => true
  | Except.error _ => false

/-- Whether the event is a stop request settling with success. -/
def Event.isStopSuccess : Event → Bool
  | Event.stopScraperDone _ r => succeeded "Failed to stop scraper" r
  | _ => false

/-- Number of decimal digits of `n`. -/
def decimalLength (n : Nat) : Nat := (Nat.toDigits 10 n).length

/-- The digits of length `k` that read back as the double `v`, if there are
any: the two candidates are `v` cut to `k` digits and the next number up;
of two that read back the one nearer to `v` is taken, the even one when they
are as near. -/
def roundTripDigits (v k : Nat) : Option (Nat × Nat) :=
  let len := decimalLength v
  let p := 10 ^ (len - k)
  let lo := v / p
  let entry := fun (s : Nat) => if s = 10 ^ k then (10 ^ (k - 1), len + 1) else (s, len)
  let loOk := roundToDouble (lo * p) == some v
  let hiOk := roundToDouble ((lo + 1) * p) == some v
  if loOk && hiOk then
    if v - lo * p < (lo + 1) * p - v then some (entry lo)
    else if (lo + 1) * p - v < v - lo * p then some (entry (lo + 1))
    else if lo % 2 = 0 then some (entry lo) else some (entry (lo + 1))
  else if loOk then some (entry lo)
  else if hiOk then some (entry (lo + 1))
  else none

/-- Search for the shortest digits, from length `k` upwards. -/
def shortestRoundTripFrom (v : Nat) : Nat → Nat → Nat × Nat
  | 0, _ => (v, decimalLength v)
  | fuel + 1, k =>
    match roundTripDigits v k with
    | some r => r
    | none => shortestRoundTripFrom v fuel (k + 1)

/-- The shortest digits that read back as the double `v`, nearest to `v`:
seventeen digits always suffice. -/
def shortestRoundTrip (v : Nat) : Nat × Nat := shortestRoundTripFrom v 17 1

/-- A host for evaluating the functions on concrete inputs: a page served
from a local server, a `JSON.parse` that reads only the empty object, and
the nearest shortest digits for large numbers. -/
def sampleHost : Host :=
  { origin := "http://localhost:5000",
    jsonParse := fun text =>
      if text = "\x7b\x7d" then Except.ok (Json.obj [])
      else Except.error "Unexpected end of JSON input",
    nullReadMessage := "Cannot read properties of null",
    shortestDigits := shortestRoundTrip,
    objectMessage := fun _ => "[object Object]" }

/-- A clock for evaluating the functions on concrete inputs. -/
def sampleClock : Clock := fun _ => "12:00:00"

/-- A page as the document may build it: empty fields, the stop button
disabled. -/
def samplePage : State :=
  { scraperRunning := false, logUpdateInterval := none, activeTimers := [],
    nextTimerId := 1, configText := "", startBatchText := "", endBatchText := "",
    runScraperBtnDisabled := false, stopScraperBtnDisabled := true,
    startBatchInputDisabled := false, endBatchInputDisabled := false,
    saveConfigBtnDisabled := false, logsContainer := [],
    configStatusText := "", configStatusClass := "" }

/-- The effective batch number in the words of the specification: what
`parseInt` reads from the field, or the default when that is `NaN` or `0`.
The script itself computes `startBatchOf` and `endBatchOf`. -/
def specEffectiveBatch (default : Int) (text : String) : JSNumber :=
  match parseInt text with
  | JSNumber.nan => JSNumber.fin default
  | JSNumber.fin v => if v = 0 then JSNumber.fin default else JSNumber.fin v
  | n => n

/-- The state with the two batch fields holding the given texts. -/
def State.withBatchTexts (s : State) (startText endText : String) : State :=
  { s with startBatchText := startText, endBatchText := endText }

/-- The log entry element for a message at a severity, read at a time. -/
def entryAt (now : String) (type : LogLevel) (message : String) : LogElement :=
  { classList := ["log-entry", "log-" ++ type.name],
    textContent := "[" ++ now ++ "] " ++ message }

/-- The part of the state the timer discipline is about: the running flag,
the timer variable, the armed timers and the next handle. -/
def State.core (s : State) : Bool × Option Nat × List Nat × Nat :=
  (s.scraperRunning, s.logUpdateInterval, s.activeTimers, s.nextTimerId)

/-- The timer discipline: handles are positive, at most one timer is armed,
and an armed timer is the one stored in `logUpdateInterval`. -/
def timersOk (s : State) : Bool :=
  decide (0 < s.nextTimerId) &&
    match s.activeTimers with
    | [] => true
    | [t] => decide (0 < t) && (s.logUpdateInterval == some t)
    | _ => false

/-- The state of a running job: the flag is set and exactly one timer is
armed, the one stored in `logUpdateInterval`. -/
def armed (s : State) : Bool :=
  s.scraperRunning && decide (0 < s.nextTimerId) &&
    match s.activeTimers with
    | [t] => decide (0 < t) && (s.logUpdateInterval == some t)
    | _ => false

/-- The message the `catch` of `loadConfig` receives, if the chain fails. -/
def loadConfigFailure (host : Host) (r : FetchResult Json) : Option String :=
  match loadConfigResponse r with
  | Except.error message => some message
  | Except.ok config => configError host config

/-- A response with status 200 and an empty object as body. -/
def okResponse : FetchResult Json :=
  FetchResult.response 200 "OK" (Except.ok (Json.obj []))

/-- What the body of a request carries for a value: a finite number is
written as a number, `NaN` and the infinities are written as `null`, here
`none`. -/
def serializedValue : JSNumber → Option Int
  | JSNumber.fin v => some v
  | _ => none

/-- The property the specification states of the body of a run request: its
two fields are numbers and `startBatch <= endBatch`.  The script itself
builds the body in `runRequest`. -/
def specBodyInOrder (startBatch endBatch : JSNumber) : Bool :=
  match serializedValue startBatch, serializedValue endBatch with
  | some a, some b => decide (a ≤ b)
  | _, _ => false

/-- A batch field of 310 nines: `parseInt` reads it as `Infinity`. -/
def overflowingText : String := String.mk (List.replicate 310 '9')

/-! ## Log rendering -/

/-- The appending loop of `updateLogs` adds the rendered records after what
the pane already holds and touches nothing else. -/
theorem foldl_append_entries (logs : List LogRecord) (st : State) :
    logs.foldl
        (fun st log => { st with logsContainer := st.logsContainer ++ [logEntry log] }) st
      = { st with logsContainer := st.logsContainer ++ logs.map logEntry } := by
  induction logs generalizing st with
  | nil => simp
  | cons log rest ih => simp [List.foldl_cons, ih, List.append_assoc]

/-- After `updateLogs` the pane holds the rendered records and nothing else. -/
theorem updateLogs_eq (logs : List LogRecord) (s : State) :
    updateLogs logs s = { s with logsContainer := logs.map logEntry } := by
  unfold updateLogs
  rw [foldl_append_entries]
  simp

/-- C9: for every list of records and every prior content of the pane,
`updateLogs` leaves exactly one element per record, in the order of the list,
with text `[timestamp] message` and classes `log-entry`, `log-<level>`,
whatever the pane held before; nothing else of the state changes; and
rendering the same list a second time gives the same state. -/
theorem updateLogs_replaces_pane (logs : List LogRecord) (s : State)
    (prior : List LogElement) :
    (updateLogs logs { s with logsContainer := prior }).logsContainer
        = logs.map (fun log =>
            { classList := ["log-entry", "log-" ++ log.level.name],
              textContent := "[" ++ log.timestamp ++ "] " ++ log.message }) ∧
    (updateLogs logs { s with logsContainer := prior }).logsContainer.length = logs.length ∧
    updateLogs logs { s with logsContainer := prior } = updateLogs logs s ∧
    updateLogs logs (updateLogs logs s) = updateLogs logs s := by
  refine ⟨?_, ?_, ?_, ?_⟩
  · rw [updateLogs_eq]; rfl
  · rw [updateLogs_eq]; simp
  · rw [updateLogs_eq, updateLogs_eq]
  · rw [updateLogs_eq, updateLogs_eq]

/-! ## Batch numbers -/

/-- The start value the script computes is the effective value of the
specification with default `1`. -/
theorem startBatchOf_eq_spec (s : State) :
    startBatchOf s = specEffectiveBatch 1 s.startBatchText := by
  unfold startBatchOf specEffectiveBatch JSNumber.or
  cases h : parseInt s.startBatchText with
  | fin v => by_cases hv : v = 0 <;> simp [JSNumber.truthy, hv]
  | _ => simp [JSNumber.truthy]

/-- The end value the script computes is the effective value of the
specification with default `10`. -/
theorem endBatchOf_eq_spec (s : State) :
    endBatchOf s = specEffectiveBatch 10 s.endBatchText := by
  unfold endBatchOf specEffectiveBatch JSNumber.or
  cases h : parseInt s.endBatchText with
  | fin v => by_cases hv : v = 0 <;> simp [JSNumber.truthy, hv]
  | _ => simp [JSNumber.truthy]

/-- An effective batch number with a non-zero default is never `NaN`. -/
theorem specEffectiveBatch_ne_nan (default : Int) (text : String) :
    specEffectiveBatch default text ≠ JSNumber.nan := by
  unfold specEffectiveBatch
  cases parseInt text with
  | fin v => by_cases hv : v = 0 <;> simp [hv]
  | _ => simp

/-- On numbers other than `NaN`, `a <= b` holds exactly when `a > b` fails. -/
theorem le_of_gt_false (a b : JSNumber) (ha : a ≠ JSNumber.nan) (hb : b ≠ JSNumber.nan)
    (h : a.gt b = false) : a.le b = true := by
  cases a <;> cases b <;> simp_all [JSNumber.gt, JSNumber.le]

/-- Serialisation of an object is the brackets around its properties. -/
theorem serializeJSON_obj (host : Host) (gap indent : String) (props : List (String × Json)) :
    serializeJSON host gap indent (Json.obj props) =
      wrapMembers "\x7b" "\x7d" gap indent (serializeProps host gap (indent ++ gap) props) := by
  simp only [serializeJSON]

/-- Serialisation of two properties without a gap. -/
theorem serializeProps_pair (host : Host) (k1 k2 : String) (v1 v2 : Json) :
    serializeProps host "" "" [(k1, v1), (k2, v2)] =
      [quoteJSONString k1 ++ ":" ++ "" ++ serializeJSON host "" "" v1,
       quoteJSONString k2 ++ ":" ++ "" ++ serializeJSON host "" "" v2] := by
  simp only [serializeProps]
  rfl

/-- Brackets around two members without a gap. -/
theorem wrapMembers_pair (opening closing stepback m1 m2 : String) :
    wrapMembers opening closing "" stepback [m1, m2] =
      opening ++ (m1 ++ "," ++ m2) ++ closing := by
  rfl

/-- The text of the body of a run request, for any two values. -/
theorem runRequest_body_text (host : Host) (a b : JSNumber) :
    (runRequest host a b).body =
      some ("\x7b\"startBatch\":" ++ serializeJSON host "" "" (Json.num a) ++
        ",\"endBatch\":" ++ serializeJSON host "" "" (Json.num b) ++ "\x7d") := by
  have e1 : quoteJSONString "startBatch" = "\"startBatch\"" := by decide
  have e2 : quoteJSONString "endBatch" = "\"endBatch\"" := by decide
  have e0 : (String.mk (List.replicate (min 0 10) ' ')) = "" := by decide
  have e5 : ("" : String) ++ "" = "" := by decide
  have e6 : "\x7b" ++ "\"startBatch\":" = "\x7b\"startBatch\":" := by decide
  have e7 : "," ++ "\"endBatch\":" = ",\"endBatch\":" := by decide
  have e8 : "\"startBatch\"" ++ ":" = "\"startBatch\":" := by decide
  have e9 : "\"endBatch\"" ++ ":" = "\"endBatch\":" := by decide
  unfold runRequest JSON.stringify
  rw [e0, serializeJSON_obj, e5, serializeProps_pair, wrapMembers_pair, e1, e2]
  simp only [String.append_empty, String.append_assoc, e8, e9]
  rw [← String.append_assoc "\x7b", e6, ← String.append_assoc ",", e7]

/-- A value that is not finite is written as `null`. -/
theorem serializeJSON_not_finite (host : Host) (n : JSNumber) (h : serializedValue n = none) :
    serializeJSON host "" "" (Json.num n) = "null" := by
  cases n with
  | fin v => simp [serializedValue] at h
  | nan => simp only [serializeJSON]
  | posInf => simp only [serializeJSON]
  | negInf => simp only [serializeJSON]

/-- A finite value is written as number to string conversion prints it. -/
theorem serializeJSON_finite (host : Host) (v : Int) :
    serializeJSON host "" "" (Json.num (JSNumber.fin v)) = numberToString host (JSNumber.fin v) := by
  simp only [serializeJSON]

/-- C1 as amended: whenever the effective start value exceeds the effective
end value, `runScraper` issues no request and its only effect is one
appended log entry of level error (running flag, controls, timer variable
and armed timers are as before); every request `runScraper` does issue is
the POST to `/api/run` built from a pair of values with
`startBatch <= endBatch`, and when both values are finite the body carries
them as numbers in that order; a value that is not finite is written into
the body as `null`. -/
theorem runScraper_inverted_range (host : Host) (clock : Clock) (s : State) :
    ((specEffectiveBatch 1 s.startBatchText).gt (specEffectiveBatch 10 s.endBatchText) = true →
      (runScraper host clock s).2 = [] ∧
      (runScraper host clock s).1 =
        { s with logsContainer := s.logsContainer ++
            [entryAt (clock 0) LogLevel.error
              "Error: Start batch cannot be greater than end batch"] } ∧
      (runScraper host clock s).1.scraperRunning = s.scraperRunning ∧
      (runScraper host clock s).1.controls = s.controls ∧
      (runScraper host clock s).1.logUpdateInterval = s.logUpdateInterval ∧
      (runScraper host clock s).1.activeTimers = s.activeTimers) ∧
    (∀ req ∈ (runScraper host clock s).2,
      req = runRequest host (specEffectiveBatch 1 s.startBatchText)
              (specEffectiveBatch 10 s.endBatchText) ∧
      req.url = "/api/run" ∧
      (specEffectiveBatch 1 s.startBatchText).le
        (specEffectiveBatch 10 s.endBatchText) = true ∧
      req.body =
        some ("\x7b\"startBatch\":" ++
          serializeJSON host "" "" (Json.num (specEffectiveBatch 1 s.startBatchText)) ++
          ",\"endBatch\":" ++
          serializeJSON host "" "" (Json.num (specEffectiveBatch 10 s.endBatchText)) ++
          "\x7d") ∧
      (∀ x y : Int, specEffectiveBatch 1 s.startBatchText = JSNumber.fin x →
        specEffectiveBatch 10 s.endBatchText = JSNumber.fin y →
        x ≤ y ∧
        specBodyInOrder (specEffectiveBatch 1 s.startBatchText)
          (specEffectiveBatch 10 s.endBatchText) = true ∧
        req.body =
          some ("\x7b\"startBatch\":" ++ numberToString host (JSNumber.fin x) ++
            ",\"endBatch\":" ++ numberToString host (JSNumber.fin y) ++ "\x7d"))) ∧
    (∀ n, serializedValue n = none → serializeJSON host "" "" (Json.num n) = "null") := by
  rw [← startBatchOf_eq_spec, ← endBatchOf_eq_spec]
  refine ⟨?_, ?_, fun n h => serializeJSON_not_finite host n h⟩
  · intro h
    have hrun : runScraper host clock s =
        (addLog (clock 0) "Error: Start batch cannot be greater than end batch"
          LogLevel.error s, []) := by
      simp [runScraper, h]
    rw [hrun]
    refine ⟨rfl, rfl, rfl, rfl, rfl, rfl⟩
  · intro req hreq
    cases h : (startBatchOf s).gt (endBatchOf s) with
    | true => simp [runScraper, h] at hreq
    | false =>
      simp [runScraper, h] at hreq
      have hle : (startBatchOf s).le (endBatchOf s) = true := by
        apply le_of_gt_false _ _ _ _ h
        · rw [startBatchOf_eq_spec]; exact specEffectiveBatch_ne_nan _ _
        · rw [endBatchOf_eq_spec]; exact specEffectiveBatch_ne_nan _ _
      refine ⟨hreq, ?_, hle, ?_, ?_⟩
      · rw [hreq]; rfl
      · rw [hreq]; exact runRequest_body_text host _ _
      · intro x y hx hy
        rw [hx, hy] at hle
        refine ⟨?_, ?_, ?_⟩
        · simpa [JSNumber.le] using hle
        · rw [hx, hy]
          simpa [specBodyInOrder, serializedValue, JSNumber.le] using hle
        · rw [hreq, hx, hy, runRequest_body_text, serializeJSON_finite, serializeJSON_finite]

/-- Witness for C1 as amended: with the fields `5` and `1` nothing is sent
and one error entry is appended; with the fields `2` and `7` the one request
is sent and its body carries 2 and 7. -/
theorem runScraper_inverted_range_witness :
    (specEffectiveBatch 1 "5").gt (specEffectiveBatch 10 "1") = true ∧
    (runScraper sampleHost sampleClock (samplePage.withBatchTexts "5" "1")).2 = [] ∧
    (runScraper sampleHost sampleClock (samplePage.withBatchTexts "5" "1")).1.logsContainer =
      [{ classList := ["log-entry", "log-error"],
         textContent := "[12:00:00] Error: Start batch cannot be greater than end batch" }] ∧
    runRequest sampleHost (JSNumber.fin 2) (JSNumber.fin 7) ∈
      (runScraper sampleHost sampleClock (samplePage.withBatchTexts "2" "7")).2 ∧
    (specEffectiveBatch 1 "2").le (specEffectiveBatch 10 "7") = true ∧
    specEffectiveBatch 1 "2" = JSNumber.fin 2 ∧
    specEffectiveBatch 10 "7" = JSNumber.fin 7 ∧
    specBodyInOrder (specEffectiveBatch 1 "2") (specEffectiveBatch 10 "7") = true ∧
    (runRequest sampleHost (JSNumber.fin 2) (JSNumber.fin 7)).body =
      some "\x7b\"startBatch\":2,\"endBatch\":7\x7d" := by
  have h := runScraper_inverted_range sampleHost sampleClock (samplePage.withBatchTexts "5" "1")
  have h2 := runScraper_inverted_range sampleHost sampleClock (samplePage.withBatchTexts "2" "7")
  have hgt : (specEffectiveBatch 1 "5").gt (specEffectiveBatch 10 "1") = true := by decide
  have hmem : runRequest sampleHost (JSNumber.fin 2) (JSNumber.fin 7) ∈
      (runScraper sampleHost sampleClock (samplePage.withBatchTexts "2" "7")).2 := by decide
  have hx : specEffectiveBatch 1 "2" = JSNumber.fin 2 := by decide
  have hy : specEffectiveBatch 10 "7" = JSNumber.fin 7 := by decide
  have hfin := (h2.2.1 _ hmem).2.2.2.2 2 7 hx hy
  refine ⟨hgt, (h.1 hgt).1, ?_, hmem, (h2.2.1 _ hmem).2.2.1, hx, hy, hfin.2.1, ?_⟩
  · rw [(h.1 hgt).2.1]
    decide
  · rw [hfin.2.2]
    decide

set_option maxRecDepth 100000 in
/-- C1 as stated fails: with the start field `5` and an end field of 310
nines the effective end value is `Infinity`, the range check passes, the
request is sent, and its body carries `null` for `endBatch`; the body does
not hold two numbers with `startBatch <= endBatch`. -/
theorem runScraper_overflowing_end_sends_null :
    specEffectiveBatch 1 "5" = JSNumber.fin 5 ∧
    specEffectiveBatch 10 overflowingText = JSNumber.posInf ∧
    (specEffectiveBatch 1 "5").gt (specEffectiveBatch 10 overflowingText) = false ∧
    (runScraper sampleHost sampleClock (samplePage.withBatchTexts "5" overflowingText)).2 =
      [runRequest sampleHost (JSNumber.fin 5) JSNumber.posInf] ∧
    (runRequest sampleHost (JSNumber.fin 5) JSNumber.posInf).url = "/api/run" ∧
    (runRequest sampleHost (JSNumber.fin 5) JSNumber.posInf).body =
      some "\x7b\"startBatch\":5,\"endBatch\":null\x7d" ∧
    specBodyInOrder (specEffectiveBatch 1 "5") (specEffectiveBatch 10 overflowingText)
      = false := by
  decide

/-- What `runScraper` does once the two values are known and in order. -/
theorem runScraper_of_values (host : Host) (clock : Clock) (s : State) (a b : JSNumber)
    (ha : startBatchOf s = a) (hb : endBatchOf s = b) (hab : a.gt b = false) :
    runScraper host clock s =
      (addLog (clock 0)
          ("Starting scraper (Batch " ++ numberToString host a ++ " to " ++
            numberToString host b ++ ")...") LogLevel.info s,
       [runRequest host a b]) := by
  simp [runScraper, ha, hb, hab]

/-- Small integers print in plain decimal on every host. -/
theorem numberToString_small (host : Host) (v : Int) (h : v.natAbs < 2 ^ 53) :
    numberToString host (JSNumber.fin v) = toString v := by
  simp only [numberToString, if_pos h]

/-- The body of the run request for the batch numbers 1 and 10, on every host. -/
theorem runRequest_body_default (host : Host) :
    (runRequest host (JSNumber.fin 1) (JSNumber.fin 10)).body =
      some "\x7b\"startBatch\":1,\"endBatch\":10\x7d" := by
  rfl

/-- The body of the run request for the batch numbers 5 and 10, on every host. -/
theorem runRequest_body_five (host : Host) :
    (runRequest host (JSNumber.fin 5) (JSNumber.fin 10)).body =
      some "\x7b\"startBatch\":5,\"endBatch\":10\x7d" := by
  rfl

/-- A field `parseInt` reads as `NaN` gives the default. -/
theorem or_default_of_nan (n d : JSNumber) (h : n = JSNumber.nan) : n.or d = d := by
  subst h; rfl

/-- A field `parseInt` reads as zero gives the default. -/
theorem or_default_of_zero (n d : JSNumber) (h : n = JSNumber.fin 0) : n.or d = d := by
  subst h; rfl

/-- A field `parseInt` reads as a non-zero integer gives that integer. -/
theorem or_value_of_nonzero (n d : JSNumber) (v : Int) (hv : v ≠ 0) (h : n = JSNumber.fin v) :
    n.or d = JSNumber.fin v := by
  subst h; simp [JSNumber.or, JSNumber.truthy, hv]

/-- The start value when the start field is read as `NaN`. -/
theorem startBatchOf_nan (s : State) (h : parseInt s.startBatchText = JSNumber.nan) :
    startBatchOf s = JSNumber.fin 1 := by
  unfold startBatchOf; rw [h]; rfl

/-- The end value when the end field is read as `NaN`. -/
theorem endBatchOf_nan (s : State) (h : parseInt s.endBatchText = JSNumber.nan) :
    endBatchOf s = JSNumber.fin 10 := by
  unfold endBatchOf; rw [h]; rfl

/-- The start value when the start field is read as zero. -/
theorem startBatchOf_zero (s : State) (h : parseInt s.startBatchText = JSNumber.fin 0) :
    startBatchOf s = JSNumber.fin 1 := by
  unfold startBatchOf; rw [h]; rfl

/-- The end value when the end field is read as zero. -/
theorem endBatchOf_zero (s : State) (h : parseInt s.endBatchText = JSNumber.fin 0) :
    endBatchOf s = JSNumber.fin 10 := by
  unfold endBatchOf; rw [h]; rfl

/-- The start value when the start field is read as a non-zero integer. -/
theorem startBatchOf_nonzero (s : State) (v : Int) (hv : v ≠ 0)
    (h : parseInt s.startBatchText = JSNumber.fin v) : startBatchOf s = JSNumber.fin v := by
  unfold startBatchOf; exact or_value_of_nonzero _ _ v hv h

/-- The end value when the end field is read as a non-zero integer. -/
theorem endBatchOf_nonzero (s : State) (v : Int) (hv : v ≠ 0)
    (h : parseInt s.endBatchText = JSNumber.fin v) : endBatchOf s = JSNumber.fin v := by
  unfold endBatchOf; exact or_value_of_nonzero _ _ v hv h

/-- What `runScraper` does when the two values are 1 and 10. -/
theorem runScraper_one_ten (host : Host) (clock : Clock) (s : State)
    (ha : startBatchOf s = JSNumber.fin 1) (hb : endBatchOf s = JSNumber.fin 10) :
    runScraper host clock s =
      ({ s with logsContainer := s.logsContainer ++
            [entryAt (clock 0) LogLevel.info "Starting scraper (Batch 1 to 10)..."] },
       [runRequest host (JSNumber.fin 1) (JSNumber.fin 10)]) := by
  rw [runScraper_of_values host clock s _ _ ha hb (by decide)]
  have h1 : numberToString host (JSNumber.fin 1) = "1" := rfl
  have h10 : numberToString host (JSNumber.fin 10) = "10" := rfl
  have hm : "Starting scraper (Batch " ++ "1" ++ " to " ++ "10" ++ ")..."
      = "Starting scraper (Batch 1 to 10)..." := by decide
  rw [h1, h10, hm]
  rfl

/-- What `runScraper` does when the two values are 5 and 10. -/
theorem runScraper_five_ten (host : Host) (clock : Clock) (s : State)
    (ha : startBatchOf s = JSNumber.fin 5) (hb : endBatchOf s = JSNumber.fin 10) :
    runScraper host clock s =
      ({ s with logsContainer := s.logsContainer ++
            [entryAt (clock 0) LogLevel.info "Starting scraper (Batch 5 to 10)..."] },
       [runRequest host (JSNumber.fin 5) (JSNumber.fin 10)]) := by
  rw [runScraper_of_values host clock s _ _ ha hb (by decide)]
  have h5 : numberToString host (JSNumber.fin 5) = "5" := rfl
  have h10 : numberToString host (JSNumber.fin 10) = "10" := rfl
  have hm : "Starting scraper (Batch " ++ "5" ++ " to " ++ "10" ++ ")..."
      = "Starting scraper (Batch 5 to 10)..." := by decide
  rw [h5, h10, hm]
  rfl

/-- C6: a batch field that is empty, or that `parseInt` reads as `NaN`, counts
as 1 in the start field and as 10 in the end field; with both fields so,
`runScraper` logs `Starting scraper (Batch 1 to 10)...` at level info, reports
no error and sends the body with `startBatch` 1 and `endBatch` 10; and with
both fields empty it issues the same requests and reaches the same state as
with the fields `1` and `10`, the field texts themselves apart. -/
theorem runScraper_unreadable_fields_default (host : Host) (clock : Clock) (s : State) :
    parseInt "" = JSNumber.nan ∧
    (∀ text, parseInt text = JSNumber.nan →
      startBatchOf { s with startBatchText := text } = JSNumber.fin 1 ∧
      endBatchOf { s with endBatchText := text } = JSNumber.fin 10) ∧
    (∀ startText endText, parseInt startText = JSNumber.nan → parseInt endText = JSNumber.nan →
      runScraper host clock (s.withBatchTexts startText endText) =
        ({ s.withBatchTexts startText endText with
            logsContainer := s.logsContainer ++
              [entryAt (clock 0) LogLevel.info "Starting scraper (Batch 1 to 10)..."] },
         [runRequest host (JSNumber.fin 1) (JSNumber.fin 10)])) ∧
    (runRequest host (JSNumber.fin 1) (JSNumber.fin 10)).body =
      some "\x7b\"startBatch\":1,\"endBatch\":10\x7d" ∧
    (runScraper host clock (s.withBatchTexts "" "")).2 =
      (runScraper host clock (s.withBatchTexts "1" "10")).2 ∧
    (runScraper host clock (s.withBatchTexts "" "")).1 =
      ((runScraper host clock (s.withBatchTexts "1" "10")).1).withBatchTexts "" "" := by
  have hempty : parseInt "" = JSNumber.nan := by decide
  have hone : parseInt "1" = JSNumber.fin 1 := by decide
  have hten : parseInt "10" = JSNumber.fin 10 := by decide
  have hdefault : ∀ startText endText, parseInt startText = JSNumber.nan →
      parseInt endText = JSNumber.nan →
      runScraper host clock (s.withBatchTexts startText endText) =
        ({ s.withBatchTexts startText endText with
            logsContainer := s.logsContainer ++
              [entryAt (clock 0) LogLevel.info "Starting scraper (Batch 1 to 10)..."] },
         [runRequest host (JSNumber.fin 1) (JSNumber.fin 10)]) := by
    intro startText endText h1 h2
    exact runScraper_one_ten host clock _
      (startBatchOf_nan (s.withBatchTexts startText endText) h1)
      (endBatchOf_nan (s.withBatchTexts startText endText) h2)
  have hexplicit : runScraper host clock (s.withBatchTexts "1" "10") =
        ({ s.withBatchTexts "1" "10" with
            logsContainer := s.logsContainer ++
              [entryAt (clock 0) LogLevel.info "Starting scraper (Batch 1 to 10)..."] },
         [runRequest host (JSNumber.fin 1) (JSNumber.fin 10)]) := by
    exact runScraper_one_ten host clock _
      (startBatchOf_nonzero (s.withBatchTexts "1" "10") 1 (by decide) hone)
      (endBatchOf_nonzero (s.withBatchTexts "1" "10") 10 (by decide) hten)
  refine ⟨hempty, ?_, hdefault, runRequest_body_default host, ?_, ?_⟩
  · intro text h
    exact ⟨startBatchOf_nan { s with startBatchText := text } h,
      endBatchOf_nan { s with endBatchText := text } h⟩
  · rw [hdefault "" "" hempty hempty, hexplicit]
  · rw [hdefault "" "" hempty hempty, hexplicit]
    rfl

/-- Witness for C6: the text `abc` is read as `NaN`, and with it in both
fields the run request for 1 and 10 is the one request sent. -/
theorem runScraper_unreadable_fields_default_witness :
    parseInt "abc" = JSNumber.nan ∧
    (runScraper sampleHost sampleClock (samplePage.withBatchTexts "abc" "abc")).2 =
      [runRequest sampleHost (JSNumber.fin 1) (JSNumber.fin 10)] := by
  have h : parseInt "abc" = JSNumber.nan := by decide
  refine ⟨h, ?_⟩
  rw [(runScraper_unreadable_fields_default sampleHost sampleClock samplePage).2.2.1
    "abc" "abc" h h]

/-- C10: a batch field read as the integer 0 takes the default as an empty
field does (1 in the start field, 10 in the end field), and a field read as
a non-zero integer, negative ones included, is used as read; with the fields
`0` and `0` the request carries 1 and 10, and with `5` and `0` it carries 5
and 10 and no validation error is logged. -/
theorem runScraper_zero_field_defaults (host : Host) (clock : Clock) (s : State) :
    (∀ text, parseInt text = JSNumber.fin 0 →
      startBatchOf { s with startBatchText := text } = JSNumber.fin 1 ∧
      endBatchOf { s with endBatchText := text } = JSNumber.fin 10 ∧
      startBatchOf { s with startBatchText := text } =
        startBatchOf { s with startBatchText := "" } ∧
      endBatchOf { s with endBatchText := text } =
        endBatchOf { s with endBatchText := "" }) ∧
    (∀ text v, v ≠ 0 → parseInt text = JSNumber.fin v →
      startBatchOf { s with startBatchText := text } = JSNumber.fin v ∧
      endBatchOf { s with endBatchText := text } = JSNumber.fin v) ∧
    parseInt "-3" = JSNumber.fin (-3) ∧
    runScraper host clock (s.withBatchTexts "0" "0") =
      ({ s.withBatchTexts "0" "0" with
          logsContainer := s.logsContainer ++
            [entryAt (clock 0) LogLevel.info "Starting scraper (Batch 1 to 10)..."] },
       [runRequest host (JSNumber.fin 1) (JSNumber.fin 10)]) ∧
    runScraper host clock (s.withBatchTexts "5" "0") =
      ({ s.withBatchTexts "5" "0" with
          logsContainer := s.logsContainer ++
            [entryAt (clock 0) LogLevel.info "Starting scraper (Batch 5 to 10)..."] },
       [runRequest host (JSNumber.fin 5) (JSNumber.fin 10)]) ∧
    (runRequest host (JSNumber.fin 1) (JSNumber.fin 10)).body =
      some "\x7b\"startBatch\":1,\"endBatch\":10\x7d" ∧
    (runRequest host (JSNumber.fin 5) (JSNumber.fin 10)).body =
      some "\x7b\"startBatch\":5,\"endBatch\":10\x7d" := by
  have hempty : parseInt "" = JSNumber.nan := by decide
  have hzero : parseInt "0" = JSNumber.fin 0 := by decide
  have hfive : parseInt "5" = JSNumber.fin 5 := by decide
  refine ⟨?_, ?_, by decide, ?_, ?_, runRequest_body_default host, runRequest_body_five host⟩
  · intro text h
    have hs := startBatchOf_zero { s with startBatchText := text } h
    have he := endBatchOf_zero { s with endBatchText := text } h
    refine ⟨hs, he, ?_, ?_⟩
    · exact hs.trans (startBatchOf_nan { s with startBatchText := "" } hempty).symm
    · exact he.trans (endBatchOf_nan { s with endBatchText := "" } hempty).symm
  · intro text v hv h
    exact ⟨startBatchOf_nonzero { s with startBatchText := text } v hv h,
      endBatchOf_nonzero { s with endBatchText := text } v hv h⟩
  · exact runScraper_one_ten host clock _
      (startBatchOf_zero (s.withBatchTexts "0" "0") hzero)
      (endBatchOf_zero (s.withBatchTexts "0" "0") hzero)
  · exact runScraper_five_ten host clock _
      (startBatchOf_nonzero (s.withBatchTexts "5" "0") 5 (by decide) hfive)
      (endBatchOf_zero (s.withBatchTexts "5" "0") hzero)

/-- Witness for C10: the text `-3` is read as the non-zero integer -3 and is
used as read in either field. -/
theorem runScraper_zero_field_defaults_witness :
    parseInt "-3" = JSNumber.fin (-3) ∧
    startBatchOf { samplePage with startBatchText := "-3" } = JSNumber.fin (-3) ∧
    endBatchOf { samplePage with endBatchText := "-3" } = JSNumber.fin (-3) := by
  have h : parseInt "-3" = JSNumber.fin (-3) := by decide
  exact ⟨h, (runScraper_zero_field_defaults sampleHost sampleClock samplePage).2.1
    "-3" (-3) (by decide) h⟩

/-! ## Timers and the running flag -/

/-- The timer discipline only looks at the core of the state. -/
theorem timersOk_of_core (s t : State) (h : t.core = s.core) : timersOk t = timersOk s := by
  simp only [State.core, Prod.mk.injEq] at h
  obtain ⟨_, h2, h3, h4⟩ := h
  simp [timersOk, h2, h3, h4]

/-- The running-job predicate only looks at the core of the state. -/
theorem armed_of_core (s t : State) (h : t.core = s.core) : armed t = armed s := by
  simp only [State.core, Prod.mk.injEq] at h
  obtain ⟨h1, h2, h3, h4⟩ := h
  simp [armed, h1, h2, h3, h4]

/-- The catch of `loadConfig` leaves the core alone. -/
theorem loadConfigFailed_core (host : Host) (clock : Clock) (m : String) (s : State) :
    (loadConfigFailed host clock m s).core = s.core := by
  unfold loadConfigFailed
  by_cases h : includes m "Failed to fetch" = true <;> simp [h, State.core, addLog]

/-- The chain of `loadConfig` leaves the core alone. -/
theorem loadConfigSettled_core (host : Host) (clock : Clock) (r : FetchResult Json)
    (s : State) : (loadConfigSettled host clock r s).core = s.core := by
  unfold loadConfigSettled
  cases loadConfigResponse r with
  | error m => exact loadConfigFailed_core host clock m s
  | ok config =>
    simp only [loadConfigLoaded]
    cases configError host config with
    | some m => exact loadConfigFailed_core host clock m s
    | none => rfl

/-- The synchronous part of `saveConfig` leaves the core alone. -/
theorem saveConfig_core (host : Host) (clock : Clock) (s : State) :
    (saveConfig host clock s).1.core = s.core := by
  unfold saveConfig
  simp only
  split <;> rfl

/-- The chain of `saveConfig` leaves the core alone. -/
theorem saveConfigSettled_core (clock : Clock) (r : FetchResult Json) (s : State) :
    (saveConfigSettled clock r s).core = s.core := by
  unfold saveConfigSettled
  split <;> rfl

/-- The synchronous part of `runScraper` leaves the core alone. -/
theorem runScraper_core (host : Host) (clock : Clock) (s : State) :
    (runScraper host clock s).1.core = s.core := by
  unfold runScraper
  simp only
  split <;> rfl

/-- A poll response never writes the running flag. -/
theorem pollSettled_running (r : FetchResult (List LogRecord)) (s : State) :
    (pollSettled r s).scraperRunning = s.scraperRunning := by
  unfold pollSettled
  split
  · rfl
  · rfl
  · rw [updateLogs_eq]
    simp only [updateUIForStoppedState, clearInterval]
    split <;> [skip; rfl]
    split <;> [skip; rfl]
    split <;> rfl

/-- Clearing the timer in `logUpdateInterval`, guarded as the script guards
it, changes nothing but the armed timers. -/
theorem guardedClear_frame (s : State) :
    (if handleTruthy s.logUpdateInterval then clearInterval s.logUpdateInterval s else s)
      = { s with activeTimers :=
            (if handleTruthy s.logUpdateInterval then clearInterval s.logUpdateInterval s
              else s).activeTimers } := by
  rcases s with ⟨r, l, a, n, c1, c2, c3, d1, d2, d3, d4, d5, lg, st, sc⟩
  cases l with
  | none => rfl
  | some t => cases t <;> rfl

/-- Under the timer discipline the guarded clear disarms every timer. -/
theorem guardedClear_disarms (s : State) (h : timersOk s = true) :
    (if handleTruthy s.logUpdateInterval then clearInterval s.logUpdateInterval s else s).activeTimers
      = [] := by
  unfold timersOk at h
  cases ht : s.activeTimers with
  | nil =>
    cases hl : s.logUpdateInterval with
    | none => simp [handleTruthy, ht]
    | some t => cases t <;> simp [handleTruthy, clearInterval, ht]
  | cons t rest =>
    cases rest with
    | nil =>
      rw [ht] at h
      simp only [Bool.and_eq_true, decide_eq_true_eq, beq_iff_eq] at h
      obtain ⟨_, hpos, hl⟩ := h
      obtain ⟨k, rfl⟩ : ∃ k, t = k + 1 := ⟨t - 1, by omega⟩
      simp [hl, handleTruthy, clearInterval, ht]
    | cons u rest2 =>
      rw [ht] at h
      simp at h

/-- What `updateUIForStoppedState` does under the timer discipline: the
controls are in the stopped configuration and no timer is armed. -/
theorem updateUIForStoppedState_eq (s : State) (h : timersOk s = true) :
    updateUIForStoppedState s =
      { s with runScraperBtnDisabled := false, stopScraperBtnDisabled := true,
               startBatchInputDisabled := false, endBatchInputDisabled := false,
               saveConfigBtnDisabled := false, activeTimers := [] } := by
  have h1 : timersOk
      { s with runScraperBtnDisabled := false, stopScraperBtnDisabled := true,
               startBatchInputDisabled := false, endBatchInputDisabled := false,
               saveConfigBtnDisabled := false } = true := h
  have hf := guardedClear_frame
      { s with runScraperBtnDisabled := false, stopScraperBtnDisabled := true,
               startBatchInputDisabled := false, endBatchInputDisabled := false,
               saveConfigBtnDisabled := false }
  rw [guardedClear_disarms _ h1] at hf
  exact hf

/-- What `startLogUpdates` does under the timer discipline: the one armed
timer is the new one and its handle is stored. -/
theorem startLogUpdates_eq (s : State) (h : timersOk s = true) :
    startLogUpdates s =
      { s with activeTimers := [s.nextTimerId], nextTimerId := s.nextTimerId + 1,
               logUpdateInterval := some s.nextTimerId } := by
  have hf := guardedClear_frame s
  rw [guardedClear_disarms s h] at hf
  unfold startLogUpdates
  simp only [setInterval]
  rw [hf]
  rfl

/-- The success branch of the run chain under the timer discipline. -/
theorem runScraperSettled_success (clock : Clock) (r : FetchResult Json) (s : State)
    (hs : succeeded "Failed to start scraper" r = true) (h : timersOk s = true) :
    runScraperSettled clock r s =
      { s with scraperRunning := true,
               runScraperBtnDisabled := true, stopScraperBtnDisabled := false,
               startBatchInputDisabled := true, endBatchInputDisabled := true,
               saveConfigBtnDisabled := true,
               activeTimers := [s.nextTimerId], nextTimerId := s.nextTimerId + 1,
               logUpdateInterval := some s.nextTimerId } := by
  unfold succeeded at hs
  unfold runScraperSettled
  cases hc : checkResponse "Failed to start scraper" r with
  | error m => rw [hc] at hs; simp at hs
  | ok v =>
    simp only
    rw [startLogUpdates_eq _ (by exact h)]
    rfl

/-- The failure branch of the run chain: one error entry is logged. -/
theorem runScraperSettled_failure (clock : Clock) (r : FetchResult Json) (s : State)
    (hs : succeeded "Failed to start scraper" r = false) :
    ∃ m, checkResponse "Failed to start scraper" r = Except.error m ∧
      runScraperSettled clock r s =
        { s with logsContainer := s.logsContainer ++
            [entryAt (clock 0) LogLevel.error ("Error: " ++ m)] } := by
  unfold succeeded at hs
  unfold runScraperSettled
  cases hc : checkResponse "Failed to start scraper" r with
  | error m => exact ⟨m, rfl, rfl⟩
  | ok v => rw [hc] at hs; simp at hs

/-- The success branch of the stop chain under the timer discipline. -/
theorem stopScraperSettled_success (clock : Clock) (r : FetchResult Json) (s : State)
    (hs : succeeded "Failed to stop scraper" r = true) (h : timersOk s = true) :
    stopScraperSettled clock r s =
      { s with scraperRunning := false,
               runScraperBtnDisabled := false, stopScraperBtnDisabled := true,
               startBatchInputDisabled := false, endBatchInputDisabled := false,
               saveConfigBtnDisabled := false, activeTimers := [] } := by
  unfold succeeded at hs
  unfold stopScraperSettled
  cases hc : checkResponse "Failed to stop scraper" r with
  | error m => rw [hc] at hs; simp at hs
  | ok v =>
    simp only
    rw [updateUIForStoppedState_eq _ (by exact h)]

/-- The failure branch of the stop chain: one error entry is logged. -/
theorem stopScraperSettled_failure (clock : Clock) (r : FetchResult Json) (s : State)
    (hs : succeeded "Failed to stop scraper" r = false) :
    ∃ m, checkResponse "Failed to stop scraper" r = Except.error m ∧
      stopScraperSettled clock r s =
        { s with logsContainer := s.logsContainer ++
            [entryAt (clock 0) LogLevel.error ("Error: " ++ m)] } := by
  unfold succeeded at hs
  unfold stopScraperSettled
  cases hc : checkResponse "Failed to stop scraper" r with
  | error m => exact ⟨m, rfl, rfl⟩
  | ok v => rw [hc] at hs; simp at hs

/-- What a poll response does under the timer discipline: the pane is
replaced; the controls and the timer change only when the flag was already
off. -/
theorem pollSettled_eq (logs : List LogRecord) (status : Nat) (statusText : String)
    (s : State) (h : timersOk s = true) :
    pollSettled (FetchResult.response status statusText (Except.ok logs)) s =
      if s.scraperRunning then { s with logsContainer := logs.map logEntry }
      else { s with logsContainer := logs.map logEntry,
                    runScraperBtnDisabled := false, stopScraperBtnDisabled := true,
                    startBatchInputDisabled := false, endBatchInputDisabled := false,
                    saveConfigBtnDisabled := false, activeTimers := [] } := by
  unfold pollSettled
  simp only [updateLogs_eq]
  cases hr : s.scraperRunning with
  | true => simp
  | false =>
    simp only [Bool.not_false, if_true]
    rw [updateUIForStoppedState_eq _ (by exact h)]
    simp

/-- Every handler keeps the timer discipline. -/
theorem timersOk_step (host : Host) (e : Event) (s : State) (h : timersOk s = true) :
    timersOk (step host e s).1 = true := by
  cases e with
  | loadConfigClick clock => exact h
  | loadConfigDone clock r =>
    exact (timersOk_of_core s _ (loadConfigSettled_core host clock r s)).trans h
  | saveConfigClick clock =>
    exact (timersOk_of_core s _ (saveConfig_core host clock s)).trans h
  | saveConfigDone clock r =>
    exact (timersOk_of_core s _ (saveConfigSettled_core clock r s)).trans h
  | runScraperClick clock =>
    exact (timersOk_of_core s _ (runScraper_core host clock s)).trans h
  | runScraperDone clock r =>
    simp only [step]
    cases hs : succeeded "Failed to start scraper" r with
    | true =>
      rw [runScraperSettled_success clock r s hs h]
      have hpos : 0 < s.nextTimerId := by
        unfold timersOk at h; simp at h; exact h.1
      simp [timersOk, hpos]
    | false =>
      obtain ⟨m, _, hm⟩ := runScraperSettled_failure clock r s hs
      rw [hm]; exact h
  | stopScraperClick clock => exact h
  | stopScraperDone clock r =>
    simp only [step]
    cases hs : succeeded "Failed to stop scraper" r with
    | true =>
      rw [stopScraperSettled_success clock r s hs h]
      have hpos : 0 < s.nextTimerId := by
        unfold timersOk at h; simp at h; exact h.1
      simp [timersOk, hpos]
    | false =>
      obtain ⟨m, _, hm⟩ := stopScraperSettled_failure clock r s hs
      rw [hm]; exact h
  | pollTick => exact h
  | pollDone r =>
    simp only [step]
    cases r with
    | rejected m => exact h
    | response status statusText json =>
      cases json with
      | error m => exact h
      | ok logs =>
        rw [pollSettled_eq logs status statusText s h]
        cases hr : s.scraperRunning with
        | true => exact h
        | false =>
          have hpos : 0 < s.nextTimerId := by
            unfold timersOk at h; simp at h; exact h.1
          simp [timersOk, hpos]
  | editConfig text => exact h
  | editStartBatch text => exact h
  | editEndBatch text => exact h

/-- A running job satisfies the timer discipline. -/
theorem timersOk_of_armed (s : State) (h : armed s = true) : timersOk s = true := by
  unfold armed at h
  unfold timersOk
  cases ht : s.activeTimers with
  | nil => rw [ht] at h; simp at h
  | cons t rest =>
    cases rest with
    | nil => rw [ht] at h; simp at h; simp [h]
    | cons u rest2 => rw [ht] at h; simp at h

/-- A running job has its flag set. -/
theorem running_of_armed (s : State) (h : armed s = true) : s.scraperRunning = true := by
  unfold armed at h
  simp only [Bool.and_eq_true] at h
  exact h.1.1

/-- A running job has exactly one armed timer. -/
theorem one_timer_of_armed (s : State) (h : armed s = true) : s.activeTimers.length = 1 := by
  unfold armed at h
  cases ht : s.activeTimers with
  | nil => rw [ht] at h; simp at h
  | cons t rest =>
    cases rest with
    | nil => rfl
    | cons u rest2 => rw [ht] at h; simp at h

/-- After the success branch of the run chain the job is running. -/
theorem armed_after_run (clock : Clock) (r : FetchResult Json) (s : State)
    (hs : succeeded "Failed to start scraper" r = true) (h : timersOk s = true) :
    armed (runScraperSettled clock r s) = true := by
  rw [runScraperSettled_success clock r s hs h]
  have hpos : 0 < s.nextTimerId := by
    unfold timersOk at h; simp at h; exact h.1
  simp [armed, hpos]

/-- Every handler other than a successful stop keeps a running job running. -/
theorem armed_step (host : Host) (e : Event) (s : State) (h : armed s = true)
    (he : e.isStopSuccess = false) : armed (step host e s).1 = true := by
  have hok := timersOk_of_armed s h
  cases e with
  | loadConfigClick clock => exact h
  | loadConfigDone clock r =>
    exact (armed_of_core s _ (loadConfigSettled_core host clock r s)).trans h
  | saveConfigClick clock =>
    exact (armed_of_core s _ (saveConfig_core host clock s)).trans h
  | saveConfigDone clock r =>
    exact (armed_of_core s _ (saveConfigSettled_core clock r s)).trans h
  | runScraperClick clock =>
    exact (armed_of_core s _ (runScraper_core host clock s)).trans h
  | runScraperDone clock r =>
    simp only [step]
    cases hs : succeeded "Failed to start scraper" r with
    | true => exact armed_after_run clock r s hs hok
    | false =>
      obtain ⟨m, _, hm⟩ := runScraperSettled_failure clock r s hs
      rw [hm]; exact h
  | stopScraperClick clock => exact h
  | stopScraperDone clock r =>
    simp only [step]
    obtain ⟨m, _, hm⟩ := stopScraperSettled_failure clock r s he
    rw [hm]; exact h
  | pollTick => exact h
  | pollDone r =>
    simp only [step]
    cases r with
    | rejected m => exact h
    | response status statusText json =>
      cases json with
      | error m => exact h
      | ok logs =>
        rw [pollSettled_eq logs status statusText s hok, if_pos (running_of_armed s h)]
        exact h
  | editConfig text => exact h
  | editStartBatch text => exact h
  | editEndBatch text => exact h

/-- The timer discipline holds when the script starts. -/
theorem timersOk_start (page : State) : timersOk page.start = true := by
  simp [timersOk, State.start]

/-- The timer discipline holds along every sequence of events. -/
theorem timersOk_runEvents (host : Host) (events : List Event) (s : State)
    (h : timersOk s = true) : timersOk (runEvents host events s) = true := by
  induction events generalizing s with
  | nil => exact h
  | cons e rest ih => exact ih _ (timersOk_step host e s h)

/-- A running job stays running along events that hold no successful stop. -/
theorem armed_runEvents (host : Host) (events : List Event) (s : State)
    (h : armed s = true) (hno : ∀ e ∈ events, e.isStopSuccess = false) :
    armed (runEvents host events s) = true := by
  induction events generalizing s with
  | nil => exact h
  | cons e rest ih =>
    exact ih _ (armed_step host e s h (hno e (List.mem_cons_self e rest)))
      (fun e2 h2 => hno e2 (List.mem_cons_of_mem e h2))

/-- Handling a sequence followed by another is handling them in turn. -/
theorem runEvents_append (host : Host) (first second : List Event) (s : State) :
    runEvents host (first ++ second) s = runEvents host second (runEvents host first s) := by
  simp [runEvents, List.foldl_append]

/-- C2: in every state reached from the start of the script by any sequence
of events (clicks, settled requests, poll ticks and their responses, edits),
at most one interval timer is armed and an armed timer is the one whose
handle is in `logUpdateInterval`; and once a run request has settled with
success, exactly one timer is armed after any further events that hold no
successful stop, further successful runs included. -/
theorem at_most_one_polling_timer (host : Host) (page : State) (events : List Event) :
    (runEvents host events page.start).activeTimers.length ≤ 1 ∧
    (∀ t ∈ (runEvents host events page.start).activeTimers,
      (runEvents host events page.start).logUpdateInterval = some t) ∧
    (∀ (clock : Clock) (r : FetchResult Json) (later : List Event),
      succeeded "Failed to start scraper" r = true →
      (∀ e ∈ later, e.isStopSuccess = false) →
      (runEvents host (events ++ Event.runScraperDone clock r :: later)
        page.start).activeTimers.length = 1) := by
  have hok := timersOk_runEvents host events page.start (timersOk_start page)
  refine ⟨?_, ?_, ?_⟩
  · unfold timersOk at hok
    cases ht : (runEvents host events page.start).activeTimers with
    | nil => simp
    | cons t rest =>
      cases rest with
      | nil => simp
      | cons u rest2 => rw [ht] at hok; simp at hok
  · intro t hmem
    unfold timersOk at hok
    cases ht : (runEvents host events page.start).activeTimers with
    | nil => rw [ht] at hmem; simp at hmem
    | cons u rest =>
      cases rest with
      | nil =>
        rw [ht] at hok hmem
        simp at hok hmem
        rw [hmem]; exact hok.2.2
      | cons v rest2 => rw [ht] at hok; simp at hok
  · intro clock r later hs hno
    rw [runEvents_append]
    apply one_timer_of_armed
    show armed (runEvents host later
      (step host (Event.runScraperDone clock r) (runEvents host events page.start)).1) = true
    exact armed_runEvents host later _ (armed_after_run clock r _ hs hok) hno

/-- Witness for C2: after a click on run and three successful run responses
in a row, with a poll tick and its response in between, one timer is armed. -/
theorem at_most_one_polling_timer_witness :
    succeeded "Failed to start scraper" okResponse = true ∧
    (∀ e ∈ [Event.runScraperDone sampleClock okResponse, Event.pollTick,
        Event.pollDone (FetchResult.response 200 "OK" (Except.ok [])),
        Event.runScraperDone sampleClock okResponse], Event.isStopSuccess e = false) ∧
    (runEvents sampleHost
      ([Event.runScraperClick sampleClock] ++ Event.runScraperDone sampleClock okResponse ::
        [Event.runScraperDone sampleClock okResponse, Event.pollTick,
         Event.pollDone (FetchResult.response 200 "OK" (Except.ok [])),
         Event.runScraperDone sampleClock okResponse])
      samplePage.start).activeTimers.length = 1 := by
  have hs : succeeded "Failed to start scraper" okResponse = true := by decide
  have hno : ∀ e ∈ [Event.runScraperDone sampleClock okResponse, Event.pollTick,
        Event.pollDone (FetchResult.response 200 "OK" (Except.ok [])),
        Event.runScraperDone sampleClock okResponse], Event.isStopSuccess e = false := by
    intro e he
    simp only [List.mem_cons, List.mem_singleton, List.not_mem_nil, or_false] at he
    rcases he with rfl | rfl | rfl | rfl <;> rfl
  exact ⟨hs, hno,
    (at_most_one_polling_timer sampleHost samplePage [Event.runScraperClick sampleClock]).2.2
      sampleClock okResponse _ hs hno⟩

/-- While the flag is set a poll response changes nothing but the log pane,
whatever the server sent. -/
theorem pollSettled_while_running (r : FetchResult (List LogRecord)) (s : State)
    (h : s.scraperRunning = true) :
    pollSettled r s = s ∨
      ∃ logs : List LogRecord,
        pollSettled r s = { s with logsContainer := logs.map logEntry } := by
  cases r with
  | rejected m => exact Or.inl rfl
  | response status statusText json =>
    cases json with
    | error m => exact Or.inl rfl
    | ok logs =>
      refine Or.inr ⟨logs, ?_⟩
      unfold pollSettled
      simp only [updateLogs_eq, h]
      rfl

/-- C3, the code at the failing input: the script has started a job (run
request settled with success), the job has ended on the server and the next
poll response carries its last log line; after the response handler the
running flag is still set, the timer with handle 1 is still armed and the
controls are still in their running configuration. -/
theorem poll_response_leaves_job_running :
    (runScraperSettled sampleClock okResponse samplePage.start).scraperRunning = true ∧
    (pollSettled
      (FetchResult.response 200 "OK" (Except.ok
        [{ timestamp := "12:00:05", level := LogLevel.success,
           message := "Scraping completed" }]))
      (runScraperSettled sampleClock okResponse samplePage.start)) =
      { runScraperSettled sampleClock okResponse samplePage.start with
        logsContainer := [{ classList := ["log-entry", "log-success"],
                            textContent := "[12:00:05] Scraping completed" }] } ∧
    (pollSettled
      (FetchResult.response 200 "OK" (Except.ok
        [{ timestamp := "12:00:05", level := LogLevel.success,
           message := "Scraping completed" }]))
      (runScraperSettled sampleClock okResponse samplePage.start)).scraperRunning = true ∧
    (pollSettled
      (FetchResult.response 200 "OK" (Except.ok
        [{ timestamp := "12:00:05", level := LogLevel.success,
           message := "Scraping completed" }]))
      (runScraperSettled sampleClock okResponse samplePage.start)).activeTimers = [1] ∧
    (pollSettled
      (FetchResult.response 200 "OK" (Except.ok
        [{ timestamp := "12:00:05", level := LogLevel.success,
           message := "Scraping completed" }]))
      (runScraperSettled sampleClock okResponse samplePage.start)).controls =
      [true, false, true, true, true] := by
  decide

/-- C4: in every state with the running flag set and a timer armed, a stop
whose request fails (the fetch rejects, the response is not ok, or its body
is unreadable) sends the one stop request and leaves the state as it was
except for two appended log entries, the warning `Stopping scraper...` and
one error entry with the message of the failure; the flag stays set, the
timers stay armed and every control keeps its `disabled` value. -/
theorem stop_failure_leaves_job_running (clock1 clock2 : Clock) (r : FetchResult Json)
    (s : State) (hrun : s.scraperRunning = true) (htimer : s.activeTimers ≠ [])
    (hfail : succeeded "Failed to stop scraper" r = false) :
    (stopScraper clock1 s).2 = [stopRequest] ∧
    (∃ m, checkResponse "Failed to stop scraper" r = Except.error m ∧
      stopScraperSettled clock2 r (stopScraper clock1 s).1 =
        { s with logsContainer := s.logsContainer ++
            [entryAt (clock1 0) LogLevel.warning "Stopping scraper...",
             entryAt (clock2 0) LogLevel.error ("Error: " ++ m)] }) ∧
    (stopScraperSettled clock2 r (stopScraper clock1 s).1).scraperRunning = true ∧
    (stopScraperSettled clock2 r (stopScraper clock1 s).1).activeTimers = s.activeTimers ∧
    (stopScraperSettled clock2 r (stopScraper clock1 s).1).activeTimers ≠ [] ∧
    (stopScraperSettled clock2 r (stopScraper clock1 s).1).logUpdateInterval
      = s.logUpdateInterval ∧
    (stopScraperSettled clock2 r (stopScraper clock1 s).1).controls = s.controls := by
  obtain ⟨m, hm, heq⟩ := stopScraperSettled_failure clock2 r (stopScraper clock1 s).1 hfail
  have hfinal : stopScraperSettled clock2 r (stopScraper clock1 s).1 =
        { s with logsContainer := s.logsContainer ++
            [entryAt (clock1 0) LogLevel.warning "Stopping scraper...",
             entryAt (clock2 0) LogLevel.error ("Error: " ++ m)] } := by
    rw [heq]
    simp [stopScraper, addLog, entryAt]
  refine ⟨rfl, ⟨m, hm, hfinal⟩, ?_, ?_, ?_, ?_, ?_⟩
  · rw [hfinal]; exact hrun
  · rw [hfinal]
  · rw [hfinal]; exact htimer
  · rw [hfinal]
  · rw [hfinal]; rfl

/-- Witness for C4: a job is running after a successful run response; the
stop request is answered with status 500. -/
theorem stop_failure_leaves_job_running_witness :
    (runScraperSettled sampleClock okResponse samplePage.start).scraperRunning = true ∧
    (runScraperSettled sampleClock okResponse samplePage.start).activeTimers ≠ [] ∧
    succeeded "Failed to stop scraper"
      (FetchResult.response 500 "INTERNAL SERVER ERROR" (Except.ok (Json.obj []))) = false ∧
    (stopScraperSettled sampleClock
      (FetchResult.response 500 "INTERNAL SERVER ERROR" (Except.ok (Json.obj [])))
      (stopScraper sampleClock
        (runScraperSettled sampleClock okResponse samplePage.start)).1).scraperRunning = true ∧
    (stopScraperSettled sampleClock
      (FetchResult.response 500 "INTERNAL SERVER ERROR" (Except.ok (Json.obj [])))
      (stopScraper sampleClock
        (runScraperSettled sampleClock okResponse samplePage.start)).1).activeTimers = [1] := by
  have h1 : (runScraperSettled sampleClock okResponse samplePage.start).scraperRunning = true := by
    decide
  have h2 : (runScraperSettled sampleClock okResponse samplePage.start).activeTimers ≠ [] := by
    decide
  have h3 : succeeded "Failed to stop scraper"
      (FetchResult.response 500 "INTERNAL SERVER ERROR" (Except.ok (Json.obj []))) = false := by
    decide
  have h := stop_failure_leaves_job_running sampleClock sampleClock
    (FetchResult.response 500 "INTERNAL SERVER ERROR" (Except.ok (Json.obj [])))
    (runScraperSettled sampleClock okResponse samplePage.start) h1 h2 h3
  refine ⟨h1, h2, h3, h.2.2.1, ?_⟩
  rw [h.2.2.2.1]
  decide

/-- C5: in every state reached from the start of the script, the success
branch of the run chain sets the flag, disables the run button, both batch
inputs and the save button, enables the stop button and leaves exactly one
timer armed, its handle stored; the success branch of the stop chain clears
the flag, enables the run button, both batch inputs and the save button,
disables the stop button and leaves no timer armed; and a failed run
response leaves the flag, the controls and the timers as they were. -/
theorem success_handlers_agree_with_flag (host : Host) (page : State) (events : List Event)
    (clock : Clock) (r : FetchResult Json) :
    (succeeded "Failed to start scraper" r = true →
      (runScraperSettled clock r (runEvents host events page.start)).scraperRunning = true ∧
      (runScraperSettled clock r (runEvents host events page.start)).controls
        = [true, false, true, true, true] ∧
      (∃ t, (runScraperSettled clock r (runEvents host events page.start)).activeTimers = [t] ∧
        (runScraperSettled clock r (runEvents host events page.start)).logUpdateInterval
          = some t)) ∧
    (succeeded "Failed to stop scraper" r = true →
      (stopScraperSettled clock r (runEvents host events page.start)).scraperRunning = false ∧
      (stopScraperSettled clock r (runEvents host events page.start)).controls
        = [false, true, false, false, false] ∧
      (stopScraperSettled clock r (runEvents host events page.start)).activeTimers = []) ∧
    (succeeded "Failed to start scraper" r = false →
      (runScraperSettled clock r (runEvents host events page.start)).scraperRunning
        = (runEvents host events page.start).scraperRunning ∧
      (runScraperSettled clock r (runEvents host events page.start)).controls
        = (runEvents host events page.start).controls ∧
      (runScraperSettled clock r (runEvents host events page.start)).activeTimers
        = (runEvents host events page.start).activeTimers ∧
      (runScraperSettled clock r (runEvents host events page.start)).logUpdateInterval
        = (runEvents host events page.start).logUpdateInterval) := by
  have hok := timersOk_runEvents host events page.start (timersOk_start page)
  refine ⟨?_, ?_, ?_⟩
  · intro hs
    rw [runScraperSettled_success clock r _ hs hok]
    exact ⟨rfl, rfl, _, rfl, rfl⟩
  · intro hs
    rw [stopScraperSettled_success clock r _ hs hok]
    exact ⟨rfl, rfl, rfl⟩
  · intro hs
    obtain ⟨m, _, hm⟩ := runScraperSettled_failure clock r (runEvents host events page.start) hs
    rw [hm]
    exact ⟨rfl, rfl, rfl, rfl⟩

/-- Witness for C5: the page after a click on run; a response with status
200 takes the success branch of either chain and one with status 500 fails. -/
theorem success_handlers_agree_with_flag_witness :
    succeeded "Failed to start scraper" okResponse = true ∧
    succeeded "Failed to stop scraper" okResponse = true ∧
    succeeded "Failed to start scraper"
      (FetchResult.response 500 "INTERNAL SERVER ERROR" (Except.ok (Json.obj []))) = false ∧
    (runScraperSettled sampleClock okResponse
      (runEvents sampleHost [Event.runScraperClick sampleClock]
        samplePage.start)).scraperRunning = true ∧
    (stopScraperSettled sampleClock okResponse
      (runEvents sampleHost [Event.runScraperClick sampleClock]
        samplePage.start)).activeTimers = [] ∧
    (runScraperSettled sampleClock
      (FetchResult.response 500 "INTERNAL SERVER ERROR" (Except.ok (Json.obj [])))
      (runEvents sampleHost [Event.runScraperClick sampleClock]
        samplePage.start)).scraperRunning
      = (runEvents sampleHost [Event.runScraperClick sampleClock]
        samplePage.start).scraperRunning := by
  have h1 : succeeded "Failed to start scraper" okResponse = true := by decide
  have h2 : succeeded "Failed to stop scraper" okResponse = true := by decide
  have h3 : succeeded "Failed to start scraper"
      (FetchResult.response 500 "INTERNAL SERVER ERROR" (Except.ok (Json.obj []))) = false := by
    decide
  exact ⟨h1, h2, h3,
    ((success_handlers_agree_with_flag sampleHost samplePage
      [Event.runScraperClick sampleClock] sampleClock okResponse).1 h1).1,
    ((success_handlers_agree_with_flag sampleHost samplePage
      [Event.runScraperClick sampleClock] sampleClock okResponse).2.1 h2).2.2,
    ((success_handlers_agree_with_flag sampleHost samplePage
      [Event.runScraperClick sampleClock] sampleClock
      (FetchResult.response 500 "INTERNAL SERVER ERROR" (Except.ok (Json.obj [])))).2.2 h3).1⟩

/-! ## Configuration panel -/

/-- The digit loop of decimal printing never returns an empty list once it
holds a digit. -/
theorem toDigitsCore_ne_nil (b : Nat) : ∀ (fuel n : Nat) (ds : List Char), ds ≠ [] →
    Nat.toDigitsCore b fuel n ds ≠ [] := by
  intro fuel
  induction fuel with
  | zero => intro n ds h; simpa [Nat.toDigitsCore] using h
  | succ k ih =>
    intro n ds h
    unfold Nat.toDigitsCore
    simp only
    split
    · simp
    · exact ih _ _ (by simp)

/-- Decimal printing of a natural number gives at least one digit. -/
theorem toDigits_ne_nil (b n : Nat) : Nat.toDigits b n ≠ [] := by
  unfold Nat.toDigits Nat.toDigitsCore
  simp only
  split
  · simp
  · exact toDigitsCore_ne_nil b _ _ _ (by simp)

/-- The string of a non-empty list of characters is not empty. -/
theorem asString_length_pos (l : List Char) (h : l ≠ []) : 0 < l.asString.length := by
  cases l with
  | nil => exact absurd rfl h
  | cons c cs => simp [List.asString, String.length]

/-- A natural number prints as a non-empty string. -/
theorem toString_nat_length_pos (n : Nat) : 0 < (toString n).length := by
  show 0 < (Nat.repr n).length
  unfold Nat.repr
  exact asString_length_pos _ (toDigits_ne_nil 10 n)

/-- An integer prints as a non-empty string. -/
theorem toString_int_length_pos (v : Int) : 0 < (toString v).length := by
  cases v with
  | ofNat n => exact toString_nat_length_pos n
  | negSucc n =>
    show 0 < ("-" ++ toString (n + 1)).length
    rw [String.length_append]
    have := toString_nat_length_pos (n + 1)
    omega

/-- Formatted digits are never the empty string. -/
theorem formatDigits_length_pos (s n : Nat) : 0 < (formatDigits s n).length := by
  unfold formatDigits
  simp only
  split
  · rw [String.length_append]
    have := toString_nat_length_pos s
    omega
  · simp only [String.length_append]
    have : ("e+" : String).length = 2 := rfl
    omega

/-- A finite number prints as a non-empty string. -/
theorem numberToString_fin_length_pos (host : Host) (v : Int) :
    0 < (numberToString host (JSNumber.fin v)).length := by
  simp only [numberToString]
  split
  · exact toString_int_length_pos v
  · rw [String.length_append]
    have := formatDigits_length_pos (host.shortestDigits v.natAbs).1
      (host.shortestDigits v.natAbs).2
    omega

/-- Brackets around members are never the empty string when the opening
bracket is not. -/
theorem wrapMembers_length_pos (opening closing gap stepback : String)
    (members : List String) (h : 0 < opening.length) :
    0 < (wrapMembers opening closing gap stepback members).length := by
  unfold wrapMembers
  split
  · rw [String.length_append]; omega
  · split
    · simp only [String.length_append]; omega
    · simp only [String.length_append]; omega

/-- The serialisation of a value is never the empty string. -/
theorem serializeJSON_length_pos (host : Host) (gap indent : String) (value : Json) :
    0 < (serializeJSON host gap indent value).length := by
  cases value with
  | null => simp only [serializeJSON]; decide
  | bool b => cases b <;> simp only [serializeJSON] <;> decide
  | num n =>
    cases n with
    | fin v => simp only [serializeJSON]; exact numberToString_fin_length_pos host v
    | nan => simp only [serializeJSON]; decide
    | posInf => simp only [serializeJSON]; decide
    | negInf => simp only [serializeJSON]; decide
  | str t =>
    simp only [serializeJSON, quoteJSONString, String.length_append]
    have : ("\"" : String).length = 1 := rfl
    omega
  | arr items =>
    simp only [serializeJSON]
    exact wrapMembers_length_pos _ _ _ _ _ (by decide)
  | obj props =>
    simp only [serializeJSON]
    exact wrapMembers_length_pos _ _ _ _ _ (by decide)

/-- The text `JSON.stringify` returns is never the empty string. -/
theorem stringify_ne_empty (host : Host) (value : Json) (space : Nat) :
    JSON.stringify host value space ≠ "" := by
  intro h
  have hpos := serializeJSON_length_pos host
    (String.mk (List.replicate (min space 10) ' ')) "" value
  unfold JSON.stringify at h
  rw [h] at hpos
  exact absurd hpos (by decide)

set_option maxRecDepth 100000 in
/-- The fallback text, on every host: the default configuration indented by
two blanks. -/
theorem stringify_defaultConfig (host : Host) :
    JSON.stringify host defaultConfig 2 =
      "\x7b\n  \"download_dir\": \"./downloads\",\n  \"auth_url\": \"https://login.openathens.net/auth/cobbcounty.org/o/72388178\",\n  \"library_credentials\": \x7b\n    \"Cobb County Library\": \x7b\n      \"username\": \"YOUR_LIBRARY_CARD_NUMBER\",\n      \"password\": \"YOUR_PIN\"\n    \x7d\n  \x7d,\n  \"search_parameters\": \x7b\n    \"state\": \"Georgia\",\n    \"include_unverified\": true,\n    \"include_closed\": false\n  \x7d,\n  \"pages_per_batch\": 10,\n  \"pages_to_download\": \"all\",\n  \"state_file\": \"reference_usa_state.json\"\n\x7d" := by
  rfl

/-- The chain of `loadConfig` runs the catch exactly when it fails. -/
theorem loadConfigSettled_of_failure (host : Host) (clock : Clock) (r : FetchResult Json)
    (s : State) (m : String) (h : loadConfigFailure host r = some m) :
    loadConfigSettled host clock r s = loadConfigFailed host clock m s := by
  unfold loadConfigFailure at h
  unfold loadConfigSettled
  cases hr : loadConfigResponse r with
  | error m2 =>
    rw [hr] at h
    simp only [Option.some.injEq] at h
    rw [h]
  | ok config =>
    rw [hr] at h
    simp only at h
    simp only [loadConfigLoaded, h]

/-- When the chain of `loadConfig` does not fail, the editor shows the
payload. -/
theorem loadConfigSettled_of_success (host : Host) (clock : Clock) (r : FetchResult Json)
    (s : State) (h : loadConfigFailure host r = none) :
    ∃ config, (loadConfigSettled host clock r s).configText = JSON.stringify host config 2 := by
  unfold loadConfigFailure at h
  unfold loadConfigSettled
  cases hr : loadConfigResponse r with
  | error m2 => rw [hr] at h; simp at h
  | ok config =>
    rw [hr] at h
    simp only at h
    exact ⟨config, by simp only [loadConfigLoaded, h]; rfl⟩

/-- What the catch of `loadConfig` leaves on the page: the fallback text in
the editor, the error styling and one of two texts on the status line, and
the error entry in the log. -/
theorem loadConfigFailed_effects (host : Host) (clock : Clock) (m : String) (s : State) :
    (loadConfigFailed host clock m s).configText = JSON.stringify host defaultConfig 2 ∧
    (loadConfigFailed host clock m s).configStatusClass = "status-message status-error" ∧
    ((loadConfigFailed host clock m s).configStatusText = "Error: " ++ m ∨
      (loadConfigFailed host clock m s).configStatusText =
        "Server connection failed. Is the server running?") ∧
    entryAt (clock 0) LogLevel.error ("Error: " ++ m)
      ∈ (loadConfigFailed host clock m s).logsContainer := by
  unfold loadConfigFailed
  by_cases h : includes m "Failed to fetch" = true
  · simp [h, addLog, entryAt]
  · simp [h, addLog, entryAt]

/-- C7 as amended: whenever the chain of `loadConfig` fails, the editor ends
up holding the default configuration serialised with an indent of two blanks,
the status line has the error styling and an error text, and the log holds
the error entry; the chain fails when the fetch rejects, when the status is
outside 200 to 299 (status 500 for one), and when the payload is an object
whose `error` property is truthy; and after the chain, failed or not, the
editor is not empty. -/
theorem loadConfig_failure_shows_default (host : Host) (clock : Clock) (s : State) :
    (∀ r m, loadConfigFailure host r = some m →
      (loadConfigSettled host clock r s).configText = JSON.stringify host defaultConfig 2 ∧
      (loadConfigSettled host clock r s).configStatusClass = "status-message status-error" ∧
      ((loadConfigSettled host clock r s).configStatusText = "Error: " ++ m ∨
        (loadConfigSettled host clock r s).configStatusText =
          "Server connection failed. Is the server running?") ∧
      entryAt (clock 0) LogLevel.error ("Error: " ++ m)
        ∈ (loadConfigSettled host clock r s).logsContainer) ∧
    (∀ m, loadConfigFailure host (FetchResult.rejected m) = some m) ∧
    (∀ status statusText json, responseOk status = false →
      loadConfigFailure host (FetchResult.response status statusText json) =
        some ("Failed to load configuration: " ++ toString status ++ " " ++ statusText)) ∧
    (∀ statusText json,
      loadConfigFailure host (FetchResult.response 500 statusText json) =
        some ("Failed to load configuration: 500 " ++ statusText)) ∧
    (∀ status statusText props e, responseOk status = true →
      List.lookup "error" props = some e → e.truthy = true →
      loadConfigFailure host
          (FetchResult.response status statusText (Except.ok (Json.obj props))) =
        some (errorMessage host e)) ∧
    (∀ r, (loadConfigSettled host clock r s).configText ≠ "") := by
  refine ⟨?_, ?_, ?_, ?_, ?_, ?_⟩
  · intro r m h
    rw [loadConfigSettled_of_failure host clock r s m h]
    exact loadConfigFailed_effects host clock m s
  · intro m
    rfl
  · intro status statusText json h
    simp [loadConfigFailure, loadConfigResponse, h]
  · intro statusText json
    rfl
  · intro status statusText props e hok hlook htruthy
    simp [loadConfigFailure, loadConfigResponse, hok, configError, readError, hlook,
      Option.filter, htruthy]
  · intro r
    cases h : loadConfigFailure host r with
    | some m =>
      rw [loadConfigSettled_of_failure host clock r s m h,
        (loadConfigFailed_effects host clock m s).1]
      exact stringify_ne_empty host defaultConfig 2
    | none =>
      obtain ⟨config, hc⟩ := loadConfigSettled_of_success host clock r s h
      rw [hc]
      exact stringify_ne_empty host config 2

/-- Witness for C7 as amended: a response with status 500 makes the chain
fail, and the editor then holds the default configuration. -/
theorem loadConfig_failure_shows_default_witness :
    loadConfigFailure sampleHost
        (FetchResult.response 500 "INTERNAL SERVER ERROR" (Except.ok (Json.obj []))) =
      some "Failed to load configuration: 500 INTERNAL SERVER ERROR" ∧
    (loadConfigSettled sampleHost sampleClock
        (FetchResult.response 500 "INTERNAL SERVER ERROR" (Except.ok (Json.obj [])))
        samplePage).configText = JSON.stringify sampleHost defaultConfig 2 := by
  have h : loadConfigFailure sampleHost
        (FetchResult.response 500 "INTERNAL SERVER ERROR" (Except.ok (Json.obj []))) =
      some "Failed to load configuration: 500 INTERNAL SERVER ERROR" := by decide
  exact ⟨h, ((loadConfig_failure_shows_default sampleHost sampleClock samplePage).1
    _ _ h).1⟩

/-- C7 as stated fails: a response with status 200 whose payload carries an
`error` field holding the empty string is shown in the editor as the
configuration, with the success styling and no error entry in the log; the
editor does not hold the default configuration. -/
theorem loadConfig_empty_error_field_is_shown :
    (loadConfigSettled sampleHost sampleClock
        (FetchResult.response 200 "OK" (Except.ok (Json.obj [("error", Json.str "")])))
        samplePage).configText = "\x7b\n  \"error\": \"\"\n\x7d" ∧
    (loadConfigSettled sampleHost sampleClock
        (FetchResult.response 200 "OK" (Except.ok (Json.obj [("error", Json.str "")])))
        samplePage).configText ≠ JSON.stringify sampleHost defaultConfig 2 ∧
    (loadConfigSettled sampleHost sampleClock
        (FetchResult.response 200 "OK" (Except.ok (Json.obj [("error", Json.str "")])))
        samplePage).configStatusClass = "status-message status-success" ∧
    (loadConfigSettled sampleHost sampleClock
        (FetchResult.response 200 "OK" (Except.ok (Json.obj [("error", Json.str "")])))
        samplePage).logsContainer =
      [{ classList := ["log-entry", "log-success"],
         textContent := "[12:00:00] Configuration loaded successfully" }] := by
  have h : (loadConfigSettled sampleHost sampleClock
        (FetchResult.response 200 "OK" (Except.ok (Json.obj [("error", Json.str "")])))
        samplePage).configText = "\x7b\n  \"error\": \"\"\n\x7d" := by decide
  refine ⟨h, ?_, by decide, by decide⟩
  rw [h, stringify_defaultConfig]
  decide

/-- C8: `saveConfig` sends a request exactly when `JSON.parse` accepts the
editor text, and then it is the POST to `/api/config` with the parsed value
serialised as body; when `JSON.parse` throws, nothing is sent, the log gets
the info entry of the attempt and one error entry `Invalid JSON: ...`, the
status line shows the same error text with the error styling, and nothing
else changes (editor text, running flag, timer variable, armed timers). -/
theorem saveConfig_validates_locally (host : Host) (clock : Clock) (s : State) :
    ((saveConfig host clock s).2 ≠ [] ↔ ∃ v, host.jsonParse s.configText = Except.ok v) ∧
    (∀ v, host.jsonParse s.configText = Except.ok v →
      (saveConfig host clock s).2 =
        [{ method := "POST", url := "/api/config",
           headers := [("Content-Type", "application/json")],
           body := some (JSON.stringify host v 0) }]) ∧
    (∀ m, host.jsonParse s.configText = Except.error m →
      (saveConfig host clock s).2 = [] ∧
      (saveConfig host clock s).1 =
        { s with logsContainer := s.logsContainer ++
                   [entryAt (clock 0) LogLevel.info "Saving configuration...",
                    entryAt (clock 1) LogLevel.error ("Invalid JSON: " ++ m)],
                 configStatusText := "Invalid JSON: " ++ m,
                 configStatusClass := "status-message status-error" } ∧
      (saveConfig host clock s).1.configText = s.configText ∧
      (saveConfig host clock s).1.scraperRunning = s.scraperRunning ∧
      (saveConfig host clock s).1.logUpdateInterval = s.logUpdateInterval ∧
      (saveConfig host clock s).1.activeTimers = s.activeTimers) := by
  have hok : ∀ v, host.jsonParse s.configText = Except.ok v →
      (saveConfig host clock s).2 =
        [{ method := "POST", url := "/api/config",
           headers := [("Content-Type", "application/json")],
           body := some (JSON.stringify host v 0) }] := by
    intro v hv
    simp [saveConfig, addLog, hv]
  have herr : ∀ m, host.jsonParse s.configText = Except.error m →
      saveConfig host clock s =
        ({ s with logsContainer := s.logsContainer ++
                    [entryAt (clock 0) LogLevel.info "Saving configuration...",
                     entryAt (clock 1) LogLevel.error ("Invalid JSON: " ++ m)],
                  configStatusText := "Invalid JSON: " ++ m,
                  configStatusClass := "status-message status-error" }, []) := by
    intro m hm
    simp [saveConfig, addLog, hm, entryAt]
  refine ⟨?_, hok, ?_⟩
  · constructor
    · intro hne
      cases hp : host.jsonParse s.configText with
      | ok v => exact ⟨v, rfl⟩
      | error m => rw [herr m hp] at hne; exact absurd rfl hne
    · rintro ⟨v, hv⟩
      rw [hok v hv]
      simp
  · intro m hm
    rw [herr m hm]
    exact ⟨rfl, rfl, rfl, rfl, rfl, rfl⟩

/-- Witness for C8: on the sample host the text of an empty object is
accepted and sent, and the empty text is refused and nothing is sent. -/
theorem saveConfig_validates_locally_witness :
    sampleHost.jsonParse "\x7b\x7d" = Except.ok (Json.obj []) ∧
    (saveConfig sampleHost sampleClock { samplePage with configText := "\x7b\x7d" }).2 =
      [{ method := "POST", url := "/api/config",
         headers := [("Content-Type", "application/json")],
         body := some "\x7b\x7d" }] ∧
    sampleHost.jsonParse "" = Except.error "Unexpected end of JSON input" ∧
    (saveConfig sampleHost sampleClock { samplePage with configText := "" }).2 = [] := by
  have h1 : sampleHost.jsonParse "\x7b\x7d" = Except.ok (Json.obj []) := rfl
  have h2 : sampleHost.jsonParse "" = Except.error "Unexpected end of JSON input" := rfl
  refine ⟨h1, ?_, h2, ?_⟩
  · rw [(saveConfig_validates_locally sampleHost sampleClock
      { samplePage with configText := "\x7b\x7d" }).2.1 _ h1]
    rfl
  · exact ((saveConfig_validates_locally sampleHost sampleClock
      { samplePage with configText := "" }).2.2 _ h2).1

end ScraperUI
